import Mathlib

/-!
Verification development for a session-based competition backend.

The development shallowly embeds the data model (GameSession, PlayerSession,
TokenReward, User) and the service layer (session service, scoring service,
blockchain service) as pure Lean functions over an explicit store.  Database
documents become list entries keyed by numeric identifiers; `Date.now()`
becomes an explicit `now : Nat` parameter (milliseconds); the reward
transport becomes an explicit `Except String (String × Nat)` argument
(transaction hash and block number on success); Mongo sorts become a stable
insertion sort by the corresponding comparator.  Thrown JavaScript errors
become `Except` error results; document saves become functional updates of
the store.
-/

/-- Session lifecycle states (constants.SESSION_STATUS). -/
inductive SessionStatus where
  | WAITING
  | LIVE
  | ENDED
  | CANCELLED
deriving DecidableEq, Repr

/-- Scoring strategies (constants.SCORING_TYPE). -/
inductive ScoringType where
  | POINTS
  | TASKS
  | RANDOM
  | COMBINED
deriving DecidableEq, Repr

/-- Reward states (constants.REWARD_STATUS). -/
inductive RewardStatus where
  | PENDING
  | COMPLETED
  | FAILED
deriving DecidableEq, Repr

/-- Error taxonomy of utils/errors.js; `internal` stands for a plain thrown
JavaScript `Error`. -/
inductive AppError where
  | validation : String → AppError
  | authentication : String → AppError
  | authorization : String → AppError
  | notFound : String → AppError
  | conflict : String → AppError
  | internal : String → AppError
deriving DecidableEq, Repr

/-- The nested `config` subdocument of gameSessionSchema. -/
structure SessionConfig where
  scoringType : ScoringType := .POINTS
  pointsPerTask : Nat := 10
  enableRandomWinner : Bool := false
  autoStart : Bool := true
  autoEnd : Bool := true
deriving DecidableEq, Repr

/-- gameSessionSchema.  The Mongo `_id` and the UUID `sessionId` are collapsed
into the single numeric key `sessionId`; timestamps are milliseconds. -/
structure GameSession where
  sessionId : Nat
  status : SessionStatus := .WAITING
  creatorId : Nat
  players : List Nat := []
  winner : Option Nat := none
  startTime : Option Nat := none
  endTime : Option Nat := none
  scheduledEndTime : Option Nat := none
  durationMinutes : Nat := 10
  maxPlayers : Nat := 50
  minPlayersToStart : Nat := 2
  config : SessionConfig := {}
deriving DecidableEq, Repr

/-- playerSessionSchema: one row per (session, user) pair.  `score` and
`tasksCompleted` are `Int` so that attempted negative writes are
representable. -/
structure PlayerSession where
  sessionId : Nat
  userId : Nat
  score : Int := 0
  tasksCompleted : Int := 0
  joinedAt : Nat
  leftAt : Option Nat := none
  isActive : Bool := true
  lastActivityAt : Nat := 0
  rank : Option Nat := none
  finalRank : Option Nat := none
deriving DecidableEq, Repr

/-- tokenRewardSchema. -/
structure TokenReward where
  rewardId : Nat
  sessionId : Nat
  userId : Nat
  tokenAmount : Nat
  transactionHash : Option String := none
  status : RewardStatus := .PENDING
  errorMessage : Option String := none
  retryCount : Nat := 0
  rewardedAt : Option Nat := none
  confirmedAt : Option Nat := none
  blockNumber : Option Nat := none
deriving DecidableEq, Repr

/-- userSchema. -/
structure User where
  userId : Nat
  username : String := ""
  walletAddress : String := ""
  isActive : Bool := true
  totalSessionsJoined : Nat := 0
  totalSessionsWon : Nat := 0
  totalTokensEarned : Nat := 0
deriving DecidableEq, Repr

/-- The persistent document store (the Mongo database). -/
structure Store where
  sessions : List GameSession := []
  playerSessions : List PlayerSession := []
  rewards : List TokenReward := []
  users : List User := []
deriving DecidableEq, Repr

/-! ### Stable sort by a boolean comparator

Mongo `.sort(...)` and the JavaScript array sort are embedded as a stable
insertion sort by the corresponding comparator. -/

/-- Insert `x` in front of the first element `y` with `le x y`. -/
def orderedInsert (le : α → α → Bool) (x : α) : List α → List α
  | [] => [x]
  | y :: ys => if le x y then x :: y :: ys else y :: orderedInsert le x ys

/-- Stable insertion sort by the boolean comparator `le`. -/
def sortByOrder (le : α → α → Bool) : List α → List α
  | [] => []
  | x :: xs => orderedInsert le x (sortByOrder le xs)

/-! ### Comparators

The sort keys used by the services.  `pointsOrder` embeds the Mongo sort
specification with keys score descending, tasksCompleted descending,
joinedAt ascending; `tasksOrder` swaps the first two keys; `combinedOrder`
embeds the comparator of calculateWinnerCombined (weighted score descending,
then score, then tasks, then joinedAt ascending). -/

def pointsOrder (a b : PlayerSession) : Bool :=
  if a.score = b.score then
    if a.tasksCompleted = b.tasksCompleted then a.joinedAt ≤ b.joinedAt
    else b.tasksCompleted < a.tasksCompleted
  else b.score < a.score

def tasksOrder (a b : PlayerSession) : Bool :=
  if a.tasksCompleted = b.tasksCompleted then
    if a.score = b.score then a.joinedAt ≤ b.joinedAt
    else b.score < a.score
  else b.tasksCompleted < a.tasksCompleted

/-- The weighted score of calculateWinnerCombined:
`player.score + player.tasksCompleted * pointsPerTask`. -/
def weightedScore (pointsPerTask : Nat) (p : PlayerSession) : Int :=
  p.score + p.tasksCompleted * pointsPerTask

def combinedOrder (pointsPerTask : Nat) (a b : PlayerSession) : Bool :=
  if weightedScore pointsPerTask a = weightedScore pointsPerTask b then
    if a.score = b.score then
      if a.tasksCompleted = b.tasksCompleted then a.joinedAt ≤ b.joinedAt
      else b.tasksCompleted < a.tasksCompleted
    else b.score < a.score
  else weightedScore pointsPerTask b < weightedScore pointsPerTask a

/-! ### GameSession instance methods (gameSessionSchema.methods) -/

/-- Virtual playerCount. -/
def GameSession.playerCount (s : GameSession) : Nat := s.players.length

/-- Virtual isFull: `playerCount >= maxPlayers`. -/
def GameSession.isFull (s : GameSession) : Bool := s.playerCount ≥ s.maxPlayers

/-- methods.isJoinable: WAITING, or LIVE and not full. -/
def GameSession.isJoinable (s : GameSession) : Bool :=
  s.status == .WAITING || (s.status == .LIVE && !s.isFull)

/-- methods.start: only from WAITING with at least minPlayersToStart players;
goes LIVE, stamps startTime, and when autoEnd is set computes
`scheduledEndTime = startTime + durationMinutes * 60 * 1000`. -/
def GameSession.start (s : GameSession) (now : Nat) : Except AppError GameSession :=
  if s.status ≠ .WAITING then
    .error (.internal "Session can only be started from WAITING status")
  else if s.playerCount < s.minPlayersToStart then
    .error (.internal "Need at least minPlayersToStart players to start")
  else
    let s₁ : GameSession := { s with status := .LIVE, startTime := some now }
    let s₂ : GameSession :=
      if s₁.config.autoEnd then
        { s₁ with scheduledEndTime := some (now + s₁.durationMinutes * 60 * 1000) }
      else s₁
    .ok s₂

/-- methods.end: refuses terminal states, otherwise goes ENDED, stamps
endTime and clears scheduledEndTime. -/
def GameSession.endSession (s : GameSession) (now : Nat) : Except AppError GameSession :=
  if s.status = .ENDED ∨ s.status = .CANCELLED then
    .error (.internal "Session is already ended")
  else
    .ok { s with status := .ENDED, endTime := some now, scheduledEndTime := none }

/-- methods.cancel: refuses only ENDED. -/
def GameSession.cancel (s : GameSession) (now : Nat) : Except AppError GameSession :=
  if s.status = .ENDED then
    .error (.internal "Cannot cancel an ended session")
  else
    .ok { s with status := .CANCELLED, endTime := some now, scheduledEndTime := none }

/-- methods.addPlayer: requires joinable and not already a member; appends the
player, then auto-starts when autoStart is set, the session is WAITING and
the new player count reaches minPlayersToStart. -/
def GameSession.addPlayer (s : GameSession) (userId : Nat) (now : Nat) :
    Except AppError GameSession :=
  if ¬ s.isJoinable then .error (.internal "Session is not joinable")
  else if s.players.contains userId then .error (.internal "Player already in session")
  else
    let s₁ : GameSession := { s with players := s.players ++ [userId] }
    if s₁.config.autoStart ∧ s₁.status = .WAITING ∧
        s₁.playerCount ≥ s₁.minPlayersToStart then
      s₁.start now
    else
      .ok s₁

/-- methods.removePlayer: filters the player out of the membership list.
There is no guard on the session state. -/
def GameSession.removePlayer (s : GameSession) (userId : Nat) : GameSession :=
  { s with players := s.players.filter (fun id => id != userId) }

/-! ### PlayerSession methods and the pre-save hook -/

/-- The schema validators of playerSessionSchema that guard every document
save: score and tasksCompleted carry min-0 validators, so a document holding
a negative value is rejected with a ValidationError.  In the Mongoose save
pipeline these validators run BEFORE any user pre-save hook. -/
def PlayerSession.validateDoc (p : PlayerSession) : Except AppError PlayerSession :=
  if p.score < 0 then .error (.validation "Score cannot be negative")
  else if p.tasksCompleted < 0 then .error (.validation "Tasks completed cannot be negative")
  else .ok p

/-- The pre-save hook of playerSessionSchema, which clamps negative score or
tasksCompleted to zero.  Because schema validation runs before this hook, a
negative value never reaches it: on every row the hook actually receives,
the clamp is the identity. -/
def PlayerSession.preSaveClamp (p : PlayerSession) : PlayerSession :=
  { p with score := if p.score < 0 then 0 else p.score,
           tasksCompleted := if p.tasksCompleted < 0 then 0 else p.tasksCompleted }

/-- A document save of a PlayerSession row: schema validation first (a
negative score or tasksCompleted raises a ValidationError and nothing is
written), then the pre-save hook. -/
def PlayerSession.save (p : PlayerSession) : Except AppError PlayerSession :=
  match p.validateDoc with
  | .error e => .error e
  | .ok q => .ok q.preSaveClamp

/-- methods.updatePerformance: rejects negative inputs, otherwise overwrites
score and tasksCompleted and saves. -/
def PlayerSession.updatePerformance (p : PlayerSession) (score tasks : Int) (now : Nat) :
    Except AppError PlayerSession :=
  if score < 0 ∨ tasks < 0 then .error (.internal "Score and tasks cannot be negative")
  else ({ p with score := score, tasksCompleted := tasks, lastActivityAt := now }).save

/-- methods.incrementScore: rejects negative increments. -/
def PlayerSession.incrementScore (p : PlayerSession) (points : Int) (now : Nat) :
    Except AppError PlayerSession :=
  if points < 0 then .error (.internal "Cannot add negative points")
  else ({ p with score := p.score + points, lastActivityAt := now }).save

/-- methods.leaveSession: only for an active row; marks inactive and stamps
leftAt, then saves.  The saved row keeps the stored score and tasksCompleted,
which satisfy the schema min-0 validators on every store the embedded
operations can produce, so the save succeeds and equals the pre-save hook
application; the model keeps the method total with that value. -/
def PlayerSession.leaveSession (p : PlayerSession) (now : Nat) :
    Except AppError PlayerSession :=
  if ¬ p.isActive then .error (.internal "Player is already inactive")
  else .ok ({ p with isActive := false, leftAt := some now }).preSaveClamp

/-! ### TokenReward methods -/

/-- methods.markCompleted: requires a truthy transaction hash; records the
hash, block number (when truthy) and timestamps. -/
def TokenReward.markCompleted (r : TokenReward) (txHash : String)
    (blockNumber : Option Nat) (now : Nat) : Except AppError TokenReward :=
  if txHash = "" then .error (.internal "Transaction hash is required")
  else
    .ok { r with status := .COMPLETED,
                 transactionHash := some txHash,
                 confirmedAt := some now,
                 blockNumber :=
                   match blockNumber with
                   | some b => if b = 0 then r.blockNumber else some b
                   | none => r.blockNumber,
                 rewardedAt := match r.rewardedAt with
                   | some t => some t
                   | none => some now }

/-- methods.markFailed: records the message (defaulted when falsy) and
increments retryCount. -/
def TokenReward.markFailed (r : TokenReward) (errorMessage : String) : TokenReward :=
  { r with status := .FAILED,
           errorMessage := some (if errorMessage = "" then "Transaction failed" else errorMessage),
           retryCount := r.retryCount + 1 }

/-- methods.retry: only a FAILED record below the retry bound of 5 can go
back to PENDING. -/
def TokenReward.retry (r : TokenReward) : Except AppError TokenReward :=
  if r.status ≠ .FAILED then .error (.internal "Can only retry failed rewards")
  else if r.retryCount ≥ 5 then .error (.internal "Maximum retry count reached")
  else .ok { r with status := .PENDING, errorMessage := none }

/-- methods.canRetry. -/
def TokenReward.canRetry (r : TokenReward) : Bool :=
  r.status == .FAILED && r.retryCount < 5

/-! ### Store lookups and document saves -/

/-- findSessionById of the services (lookup by either key, collapsed to the
single numeric key of the model). -/
def findSessionById (store : Store) (sid : Nat) : Option GameSession :=
  store.sessions.find? (fun s => s.sessionId == sid)

/-- User.findById. -/
def User.findById (store : Store) (uid : Nat) : Option User :=
  store.users.find? (fun u => u.userId == uid)

/-- PlayerSession.findOne on the (sessionId, userId) pair. -/
def PlayerSession.findOne (store : Store) (sid uid : Nat) : Option PlayerSession :=
  store.playerSessions.find? (fun p => p.sessionId == sid && p.userId == uid)

/-- statics.findBySession of tokenRewardSchema: the (at most one) reward of a
session. -/
def TokenReward.findBySession (rewards : List TokenReward) (sid : Nat) : Option TokenReward :=
  rewards.find? (fun r => r.sessionId == sid)

/-- TokenReward.findById. -/
def TokenReward.findById (store : Store) (rid : Nat) : Option TokenReward :=
  store.rewards.find? (fun r => r.rewardId == rid)

/-- Persisting a fetched session document: replaces the rows with the same
key. -/
def saveSessionDoc (l : List GameSession) (s : GameSession) : List GameSession :=
  l.map (fun x => if x.sessionId == s.sessionId then s else x)

def savePlayerSessionDoc (l : List PlayerSession) (p : PlayerSession) : List PlayerSession :=
  l.map (fun x => if x.sessionId == p.sessionId && x.userId == p.userId then p else x)

def saveUserDoc (l : List User) (u : User) : List User :=
  l.map (fun x => if x.userId == u.userId then u else x)

def saveRewardDoc (l : List TokenReward) (r : TokenReward) : List TokenReward :=
  l.map (fun x => if x.rewardId == r.rewardId then r else x)

/-! ### Scoring service (services/scoring.service.js) -/

/-- The active PlayerSession rows of a session
(`PlayerSession.find(\x7b sessionId, isActive: true \x7d)`). -/
def activePlayers (sid : Nat) (l : List PlayerSession) : List PlayerSession :=
  l.filter (fun p => p.sessionId == sid && p.isActive)

/-- calculateWinnerByPoints: first row under score desc, tasksCompleted desc,
joinedAt asc. -/
def ScoringService.calculateWinnerByPoints (sid : Nat) (l : List PlayerSession) :
    Option PlayerSession :=
  (sortByOrder pointsOrder (activePlayers sid l)).head?

/-- calculateWinnerByTasks: first row under tasksCompleted desc, score desc,
joinedAt asc. -/
def ScoringService.calculateWinnerByTasks (sid : Nat) (l : List PlayerSession) :
    Option PlayerSession :=
  (sortByOrder tasksOrder (activePlayers sid l)).head?

/-- calculateWinnerRandom: a uniformly random index into the active rows; the
random draw is the explicit `rand` argument. -/
def ScoringService.calculateWinnerRandom (sid : Nat) (l : List PlayerSession)
    (rand : Nat) : Option PlayerSession :=
  let players := activePlayers sid l
  if players.isEmpty then none
  else players[rand % players.length]?

/-- calculateWinnerCombined: first row under weighted desc, score desc,
tasksCompleted desc, joinedAt asc, where the weight per task is
`sessionConfig.pointsPerTask || 10` (a stored zero falls back to 10). -/
def ScoringService.calculateWinnerCombined (sid : Nat) (cfg : SessionConfig)
    (l : List PlayerSession) : Option PlayerSession :=
  let pointsPerTask := if cfg.pointsPerTask = 0 then 10 else cfg.pointsPerTask
  (sortByOrder (combinedOrder pointsPerTask) (activePlayers sid l)).head?

/-- The switch of calculateWinner over config.scoringType followed by the
enableRandomWinner override. -/
def ScoringService.selectWinner (sid : Nat) (cfg : SessionConfig)
    (l : List PlayerSession) (rand : Nat) : Option PlayerSession :=
  let strategyWinner :=
    match cfg.scoringType with
    | .POINTS => ScoringService.calculateWinnerByPoints sid l
    | .TASKS => ScoringService.calculateWinnerByTasks sid l
    | .RANDOM => ScoringService.calculateWinnerRandom sid l rand
    | .COMBINED => ScoringService.calculateWinnerCombined sid cfg l
  if cfg.enableRandomWinner then ScoringService.calculateWinnerRandom sid l rand
  else strategyWinner

/-- statics.calculateRanks of playerSessionSchema: ranks 1..n assigned along
the POINTS ordering (score desc, tasksCompleted desc, joinedAt asc) over the
active rows, each row saved.  The stored rows satisfy the schema min-0
validators on every store the embedded operations can produce, so each save
succeeds and equals the pre-save hook application; the model keeps the
write-back total with that value. -/
def PlayerSession.calculateRanks (sid : Nat) (l : List PlayerSession) :
    List PlayerSession :=
  ((sortByOrder pointsOrder (activePlayers sid l)).enum).map
    (fun ip => ({ ip.2 with rank := some (ip.1 + 1) }).preSaveClamp)

/-- calculateFinalRanks: calculateRanks followed by persisting
`finalRank := rank` on every row. -/
def ScoringService.calculateFinalRanks (sid : Nat) (l : List PlayerSession) :
    List PlayerSession :=
  (PlayerSession.calculateRanks sid l).map
    (fun p => ({ p with finalRank := p.rank }).preSaveClamp)

/-- Writing a batch of updated rows back into the stored list. -/
def writeBackPlayerSessions (l : List PlayerSession) (upds : List PlayerSession) :
    List PlayerSession :=
  upds.foldl savePlayerSessionDoc l

/-- calculateWinner: requires the session to exist and be ENDED; with no
active players returns no winner and changes nothing; otherwise picks the
winner by the configured strategy (with the random override), persists it on
the session, and persists final ranks on the active rows. -/
def ScoringService.calculateWinner (store : Store) (sid : Nat) (rand : Nat) :
    Store × Except AppError (Option PlayerSession) :=
  match findSessionById store sid with
  | none => (store, .error (.notFound "Session"))
  | some session =>
    if session.status ≠ .ENDED then
      (store, .error (.validation "Session must be ended before calculating winner"))
    else if (activePlayers sid store.playerSessions).isEmpty then
      (store, .ok none)
    else
      let winner := ScoringService.selectWinner sid session.config store.playerSessions rand
      let store₁ :=
        match winner with
        | some w =>
          { store with sessions := saveSessionDoc store.sessions { session with winner := some w.userId } }
        | none => store
      let ranked := ScoringService.calculateFinalRanks sid store₁.playerSessions
      let store₂ :=
        { store₁ with playerSessions := writeBackPlayerSessions store₁.playerSessions ranked }
      (store₂, .ok winner)

/-! ### Blockchain service (services/blockchain.service.js)

The reward transport (`mockSendToken` / `sendTokenToBlockchain`) is the
explicit `transport` argument, carrying the transaction hash and the block
number on success. -/

/-- awardToken: requires the user to exist with a wallet address and refuses
a session that already has a reward record; otherwise creates a PENDING
record, invokes the transport, and marks the record COMPLETED (crediting the
user) or FAILED.  Failures after record creation keep the record and
propagate an error. -/
def BlockchainService.awardToken (store : Store) (sid uid : Nat)
    (tokenAmount : Option Nat) (newRewardId : Nat)
    (transport : Except String (String × Nat)) (now : Nat) :
    Store × Except AppError TokenReward :=
  match User.findById store uid with
  | none => (store, .error (.notFound "User"))
  | some user =>
    if user.walletAddress = "" then
      (store, .error (.validation "User does not have a wallet address"))
    else
      let amount := match tokenAmount with
        | some a => if a = 0 then 100 else a
        | none => 100
      match TokenReward.findBySession store.rewards sid with
      | some _ => (store, .error (.validation "Reward already exists for this session"))
      | none =>
        let reward : TokenReward :=
          { rewardId := newRewardId, sessionId := sid, userId := uid,
            tokenAmount := amount, status := .PENDING }
        let store₁ := { store with rewards := reward :: store.rewards }
        match transport with
        | .error e =>
          let failed := reward.markFailed e
          ({ store₁ with rewards := saveRewardDoc store₁.rewards failed },
            .error (.internal ("Failed to award token: " ++ e)))
        | .ok (txHash, blockNumber) =>
          match reward.markCompleted txHash (some blockNumber) now with
          | .error _ =>
            let failed := reward.markFailed "Transaction hash is required"
            ({ store₁ with rewards := saveRewardDoc store₁.rewards failed },
              .error (.internal "Failed to award token: Transaction hash is required"))
          | .ok completed =>
            let user₁ := { user with totalTokensEarned := user.totalTokensEarned + amount }
            ({ store₁ with rewards := saveRewardDoc store₁.rewards completed,
                           users := saveUserDoc store₁.users user₁ },
              .ok completed)

/-- retryFailedReward: refuses an unknown record and a record that cannot be
retried; otherwise resets the record to PENDING, re-invokes the transport and
marks the record COMPLETED (crediting the user) or FAILED. -/
def BlockchainService.retryFailedReward (store : Store) (rid : Nat)
    (transport : Except String (String × Nat)) (now : Nat) :
    Store × Except AppError TokenReward :=
  match TokenReward.findById store rid with
  | none => (store, .error (.notFound "Token reward"))
  | some reward =>
    if ¬ reward.canRetry then (store, .error (.validation "Reward cannot be retried"))
    else
      match reward.retry with
      | .error e => (store, .error e)
      | .ok pending =>
        let store₁ := { store with rewards := saveRewardDoc store.rewards pending }
        match User.findById store₁ reward.userId with
        | none => (store₁, .error (.notFound "User"))
        | some user =>
          match transport with
          | .error e =>
            let failed := pending.markFailed (if e = "" then "Retry failed" else e)
            ({ store₁ with rewards := saveRewardDoc store₁.rewards failed },
              .error (.internal e))
          | .ok (txHash, blockNumber) =>
            match pending.markCompleted txHash (some blockNumber) now with
            | .error _ =>
              let failed := pending.markFailed "Transaction hash is required"
              ({ store₁ with rewards := saveRewardDoc store₁.rewards failed },
                .error (.internal "Transaction hash is required"))
            | .ok completed =>
              let user₁ :=
                { user with totalTokensEarned := user.totalTokensEarned + reward.tokenAmount }
              ({ store₁ with rewards := saveRewardDoc store₁.rewards completed,
                             users := saveUserDoc store₁.users user₁ },
                .ok completed)

/-! ### Session service (services/session.service.js) -/

/-- The optional nested config of a create request body. -/
structure SessionConfigInput where
  scoringType : Option ScoringType := none
  pointsPerTask : Option Nat := none
  enableRandomWinner : Option Bool := none
  autoStart : Option Bool := none
  autoEnd : Option Bool := none
deriving DecidableEq, Repr

/-- The create request body (absent fields are `none`). -/
structure CreateSessionInput where
  durationMinutes : Option Nat := none
  maxPlayers : Option Nat := none
  minPlayersToStart : Option Nat := none
  config : SessionConfigInput := {}
deriving DecidableEq, Repr

/-- Schema validation of gameSessionSchema together with its pre-save hook
(duration 1..120, maxPlayers 2..1000, minPlayersToStart at least 1 and at
most maxPlayers). -/
def validGameSession (s : GameSession) : Bool :=
  1 ≤ s.durationMinutes && s.durationMinutes ≤ 120 &&
  2 ≤ s.maxPlayers && s.maxPlayers ≤ 1000 &&
  1 ≤ s.minPlayersToStart && s.minPlayersToStart ≤ s.maxPlayers

/-- createSession: requires the creator to exist; builds the session in
WAITING with the defaulted configuration.  A `pointsPerTask` of zero is falsy
in `sessionConfig.pointsPerTask || DEFAULTS.POINTS_PER_TASK` and is therefore
replaced by the default 10; `enableRandomWinner` falls back to false and the
auto flags to true. -/
def SessionService.createSession (store : Store) (userId : Nat)
    (input : CreateSessionInput) (newSessionId : Nat) :
    Store × Except AppError GameSession :=
  match User.findById store userId with
  | none => (store, .error (.notFound "User"))
  | some _ =>
    let cfg : SessionConfig :=
      { scoringType := input.config.scoringType.getD .POINTS,
        pointsPerTask :=
          match input.config.pointsPerTask with
          | some v => if v = 0 then 10 else v
          | none => 10,
        enableRandomWinner := input.config.enableRandomWinner.getD false,
        autoStart := input.config.autoStart.getD true,
        autoEnd := input.config.autoEnd.getD true }
    let session : GameSession :=
      { sessionId := newSessionId, status := .WAITING, creatorId := userId,
        players := [], winner := none, startTime := none, endTime := none,
        scheduledEndTime := none,
        durationMinutes := input.durationMinutes.getD 10,
        maxPlayers := input.maxPlayers.getD 50,
        minPlayersToStart := input.minPlayersToStart.getD 2,
        config := cfg }
    if validGameSession session then
      ({ store with sessions := store.sessions ++ [session] }, .ok session)
    else
      (store, .error (.validation "Validation failed"))

/-- joinSession: requires the session to exist and be joinable (a terminal
session yields a conflict, a full LIVE session yields a capacity conflict),
the pair to have no active row, and the user to exist and be active; then
creates or reactivates the PlayerSession row, appends membership through
addPlayer (auto-start included), and increments the sessions-joined
counter. -/
def SessionService.joinSession (store : Store) (sid uid : Nat) (now : Nat) :
    Store × Except AppError GameSession :=
  match findSessionById store sid with
  | none => (store, .error (.notFound "Session"))
  | some session =>
    if ¬ session.isJoinable then
      if session.status = .ENDED ∨ session.status = .CANCELLED then
        (store, .error (.conflict "Session has already ended"))
      else if session.isFull then
        (store, .error (.conflict "Session is full"))
      else
        (store, .error (.validation "Session is not joinable"))
    else
      let existing := PlayerSession.findOne store sid uid
      if (match existing with | some ps => ps.isActive | none => false) then
        (store, .error (.conflict "User is already in this session"))
      else
        match User.findById store uid with
        | none => (store, .error (.notFound "User"))
        | some user =>
          if ¬ user.isActive then
            (store, .error (.validation "User account is not active"))
          else
            let newRows :=
              match existing with
              | some ps =>
                savePlayerSessionDoc store.playerSessions
                  (({ ps with isActive := true, leftAt := none,
                              lastActivityAt := now }).preSaveClamp)
              | none =>
                store.playerSessions ++
                  [{ sessionId := sid, userId := uid, score := 0,
                     tasksCompleted := 0, joinedAt := now, leftAt := none,
                     isActive := true, lastActivityAt := now, rank := none,
                     finalRank := none }]
            let store₁ := { store with playerSessions := newRows }
            let afterAdd : Store × Except AppError GameSession :=
              if session.players.contains uid then (store₁, .ok session)
              else
                match session.addPlayer uid now with
                | .error e => (store₁, .error e)
                | .ok session₁ =>
                  ({ store₁ with sessions := saveSessionDoc store₁.sessions session₁ },
                    .ok session₁)
            match afterAdd with
            | (store₂, .error e) => (store₂, .error e)
            | (store₂, .ok session₂) =>
              let user₁ := { user with totalSessionsJoined := user.totalSessionsJoined + 1 }
              ({ store₂ with users := saveUserDoc store₂.users user₁ }, .ok session₂)

/-- leaveSession: requires the session and an active PlayerSession row;
marks the row inactive and removes the member from the session's players
list.  The session state is never consulted. -/
def SessionService.leaveSession (store : Store) (sid uid : Nat) (now : Nat) :
    Store × Except AppError Unit :=
  match findSessionById store sid with
  | none => (store, .error (.notFound "Session"))
  | some session =>
    match PlayerSession.findOne store sid uid with
    | none => (store, .error (.notFound "Player session"))
    | some ps =>
      if ¬ ps.isActive then
        (store, .error (.validation "Player is not active in this session"))
      else
        match ps.leaveSession now with
        | .error e => (store, .error e)
        | .ok ps₁ =>
          let store₁ :=
            { store with playerSessions := savePlayerSessionDoc store.playerSessions ps₁ }
          let session₁ := session.removePlayer uid
          ({ store₁ with sessions := saveSessionDoc store₁.sessions session₁ }, .ok ())

/-- endSession (the handler behind the manual end endpoint): creator-only;
refuses terminal sessions; transitions the session to ENDED.  It performs no
winner computation and no reward issuance. -/
def SessionService.endSession (store : Store) (sid uid : Nat) (now : Nat) :
    Store × Except AppError GameSession :=
  match findSessionById store sid with
  | none => (store, .error (.notFound "Session"))
  | some session =>
    if session.creatorId ≠ uid then
      (store, .error (.authorization "Only session creator can end the session"))
    else if session.status = .ENDED ∨ session.status = .CANCELLED then
      (store, .error (.conflict "Session is already ended"))
    else
      match session.endSession now with
      | .error e => (store, .error e)
      | .ok session₁ =>
        ({ store with sessions := saveSessionDoc store.sessions session₁ }, .ok session₁)

/-- endSessionAndProcessRewards (used by the auto-end reconciler): optional
creator check, refuses terminal sessions, transitions to ENDED, computes the
winner and final ranks, and awards the token to the winner inside a
try/catch: a failed award leaves the session ENDED with its winner and
reports success. -/
def SessionService.endSessionAndProcessRewards (store : Store) (sid : Nat)
    (creator : Option Nat) (now rand newRewardId : Nat)
    (transport : Except String (String × Nat)) :
    Store × Except AppError (Option PlayerSession) :=
  match findSessionById store sid with
  | none => (store, .error (.notFound "Session"))
  | some session =>
    if (match creator with | some u => session.creatorId != u | none => false) then
      (store, .error (.authorization "Only session creator can end the session"))
    else if session.status = .ENDED ∨ session.status = .CANCELLED then
      (store, .error (.conflict "Session is already ended"))
    else
      match session.endSession now with
      | .error e => (store, .error e)
      | .ok session₁ =>
        let store₁ := { store with sessions := saveSessionDoc store.sessions session₁ }
        match ScoringService.calculateWinner store₁ sid rand with
        | (store₂, .error e) => (store₂, .error e)
        | (store₂, .ok none) => (store₂, .ok none)
        | (store₂, .ok (some w)) =>
          let (store₃, awardRes) :=
            BlockchainService.awardToken store₂ sid w.userId none newRewardId transport now
          match awardRes with
          | .ok _ =>
            let newUsers :=
              match User.findById store₃ w.userId with
              | some wu =>
                saveUserDoc store₃.users
                  { wu with totalSessionsWon := wu.totalSessionsWon + 1 }
              | none => store₃.users
            let store₄ := { store₃ with users := newUsers }
            (store₄, .ok (some w))
          | .error _ => (store₃, .ok (some w))

/-- Concrete fixture for the C9 witness. -/
def rewardC9 : TokenReward :=
  { rewardId := 5, sessionId := 9, userId := 3, tokenAmount := 100,
    status := .FAILED, errorMessage := some "boom", retryCount := 2 }

/-- Concrete fixture for the C9 witness. -/
def storeC9 : Store :=
  { rewards := [rewardC9], users := [{ userId := 3, walletAddress := "0xabc" }] }

/-- Concrete fixture for the C2 witness: a store whose session 3 is ENDED and
already carries a reward record. -/
def storeC2 : Store :=
  { sessions := [{ sessionId := 3, status := .ENDED, creatorId := 1, players := [2] }],
    rewards := [{ rewardId := 8, sessionId := 3, userId := 2, tokenAmount := 100,
                  status := .COMPLETED }],
    users := [{ userId := 1, walletAddress := "0xaa" },
              { userId := 2, walletAddress := "0xbb" }] }

/-! ### Claim C3 -/

/-- Fixture for C3: a WAITING session already at capacity
(maxPlayers 2, two members), with autoStart off and a third active user. -/
def storeC3 : Store :=
  { sessions := [{ sessionId := 100, status := .WAITING, creatorId := 1,
                   players := [1, 2], maxPlayers := 2, minPlayersToStart := 2,
                   config := { autoStart := false } }],
    playerSessions := [{ sessionId := 100, userId := 1, joinedAt := 0 },
                       { sessionId := 100, userId := 2, joinedAt := 1 }],
    users := [{ userId := 1 }, { userId := 2 }, { userId := 3 }] }

/-- Fixture for the C3 witness: a LIVE session at capacity. -/
def storeC3live : Store :=
  { sessions := [{ sessionId := 7, status := .LIVE, creatorId := 1,
                   players := [1, 2], maxPlayers := 2, minPlayersToStart := 2 }],
    users := [{ userId := 3 }] }

/-! ### Claim C7 -/

/-- Fixture for C7: an ENDED session that still has a member with an active
PlayerSession row. -/
def storeC7 : Store :=
  { sessions := [{ sessionId := 100, status := .ENDED, creatorId := 1,
                   players := [7], winner := some 7, endTime := some 900 }],
    playerSessions := [{ sessionId := 100, userId := 7, joinedAt := 0 }],
    users := [{ userId := 7 }] }

/-! ### Claim C5 -/

/-- Fixture for C5: an ENDED session configured with the TASKS strategy;
player 1 leads on score, player 2 leads on tasks. -/
def storeC5 : Store :=
  { sessions := [{ sessionId := 100, status := .ENDED, creatorId := 1,
                   players := [1, 2], config := { scoringType := .TASKS } }],
    playerSessions :=
      [{ sessionId := 100, userId := 1, score := 10, tasksCompleted := 0, joinedAt := 0 },
       { sessionId := 100, userId := 2, score := 0, tasksCompleted := 5, joinedAt := 1 }],
    users := [{ userId := 1 }, { userId := 2 }] }

/-! ### Claim C6 -/

/-- Fixture for C6 (spec Scenario B): X has score 50, tasks 2; Y has score
60, tasks 1; with pointsPerTask 10 both weigh 70; X joined earlier. -/
def psX : PlayerSession :=
  { sessionId := 100, userId := 1, score := 50, tasksCompleted := 2, joinedAt := 0 }

/-- Fixture for C6. -/
def psY : PlayerSession :=
  { sessionId := 100, userId := 2, score := 60, tasksCompleted := 1, joinedAt := 5 }

/-- Fixture for the C6 witness: the earlier joiner of a fully tied pair. -/
def psA6 : PlayerSession :=
  { sessionId := 100, userId := 1, score := 40, tasksCompleted := 3, joinedAt := 2 }

/-- Fixture for the C6 witness: the later joiner of a fully tied pair. -/
def psB6 : PlayerSession :=
  { sessionId := 100, userId := 2, score := 40, tasksCompleted := 3, joinedAt := 9 }

/-- Fixture for C1: a LIVE session with one active scoring participant and
no reward record. -/
def storeC1 : Store :=
  { sessions := [{ sessionId := 100, status := .LIVE, creatorId := 1,
                   players := [2], startTime := some 0,
                   scheduledEndTime := some 600000 }],
    playerSessions := [{ sessionId := 100, userId := 2, score := 5,
                         tasksCompleted := 1, joinedAt := 0 }],
    users := [{ userId := 1, walletAddress := "0xaa" },
              { userId := 2, walletAddress := "0xbb" }] }

/-- Fixture for the C8 witness: a row carrying a negative stored score (a
state the program itself can never persist). -/
def pC8 : PlayerSession :=
  { sessionId := 1, userId := 2, score := -7, tasksCompleted := 4, joinedAt := 0 }

/-- Fixture for the C8 witness: a schema-valid row. -/
def pC8good : PlayerSession :=
  { sessionId := 1, userId := 3, score := 3, tasksCompleted := 1, joinedAt := 0 }

theorem orderedInsert_perm (le : α → α → Bool) (x : α) :
    ∀ l : List α, List.Perm (orderedInsert le x l) (x :: l) := by
  intro l
  induction l with
  | nil => simp [orderedInsert]
  | cons y ys ih =>
    by_cases h : le x y = true
    · simp [orderedInsert, h]
    · simp only [orderedInsert, h, if_neg, Bool.not_eq_true]
      exact List.Perm.trans (List.Perm.cons y ih) (List.Perm.swap x y ys)

theorem sortByOrder_perm (le : α → α → Bool) :
    ∀ l : List α, List.Perm (sortByOrder le l) l := by
  intro l
  induction l with
  | nil => simp [sortByOrder]
  | cons x xs ih =>
    exact List.Perm.trans (orderedInsert_perm le x (sortByOrder le xs)) (List.Perm.cons x ih)

theorem length_sortByOrder (le : α → α → Bool) (l : List α) :
    (sortByOrder le l).length = l.length :=
  (sortByOrder_perm le l).length_eq

theorem mem_sortByOrder {le : α → α → Bool} {l : List α} {a : α} :
    a ∈ sortByOrder le l ↔ a ∈ l :=
  (sortByOrder_perm le l).mem_iff

theorem mem_orderedInsert {le : α → α → Bool} {l : List α} {x a : α} :
    a ∈ orderedInsert le x l ↔ a = x ∨ a ∈ l := by
  rw [(orderedInsert_perm le x l).mem_iff, List.mem_cons]

theorem pairwise_orderedInsert (le : α → α → Bool)
    (trans : ∀ a b c, le a b = true → le b c = true → le a c = true)
    (total : ∀ a b, le a b = true ∨ le b a = true) (x : α) :
    ∀ {l : List α}, l.Pairwise (fun a b => le a b = true) →
      (orderedInsert le x l).Pairwise (fun a b => le a b = true) := by
  intro l hl
  induction l with
  | nil => simp [orderedInsert]
  | cons y ys ih =>
    rcases List.pairwise_cons.mp hl with ⟨hy, hys⟩
    by_cases h : le x y = true
    · simp only [orderedInsert, h, if_pos]
      refine List.pairwise_cons.mpr ⟨?_, hl⟩
      intro b hb
      rcases List.mem_cons.mp hb with rfl | hb
      · exact h
      · exact trans x y b h (hy b hb)
    · simp only [orderedInsert, h, if_neg, Bool.not_eq_true]
      refine List.pairwise_cons.mpr ⟨?_, ih hys⟩
      intro b hb
      rcases mem_orderedInsert.mp hb with rfl | hb
      · rcases total b y with hby | hyb
        · exact absurd hby h
        · exact hyb
      · exact hy b hb

theorem pairwise_sortByOrder (le : α → α → Bool)
    (trans : ∀ a b c, le a b = true → le b c = true → le a c = true)
    (total : ∀ a b, le a b = true ∨ le b a = true) :
    ∀ l : List α, (sortByOrder le l).Pairwise (fun a b => le a b = true) := by
  intro l
  induction l with
  | nil => simp [sortByOrder]
  | cons x xs ih => exact pairwise_orderedInsert le trans total x ih

/-- In a list pairwise ordered by `le`, an element strictly preferred to
another (in the sense `le b a = false`) occurs before it. -/
theorem pairwise_strict_before {le : α → α → Bool} :
    ∀ {l : List α}, l.Pairwise (fun u v => le u v = true) →
      ∀ {a b : α}, a ∈ l → b ∈ l → a ≠ b → le b a = false → List.Sublist [a, b] l := by
  intro l hl
  induction l with
  | nil => intro a b ha; exact absurd ha (List.not_mem_nil a)
  | cons h t ih =>
    intro a b ha hb hne hba
    rcases List.pairwise_cons.mp hl with ⟨hh, ht⟩
    rcases List.mem_cons.mp ha with rfl | hat
    · rcases List.mem_cons.mp hb with rfl | hbt
      · exact absurd rfl hne
      · exact (List.singleton_sublist.mpr hbt).cons₂ a
    · rcases List.mem_cons.mp hb with rfl | hbt
      · exact absurd (hh a hat) (by simp [hba])
      · exact (ih ht hat hbt hne hba).cons h

theorem pointsOrder_iff (a b : PlayerSession) :
    pointsOrder a b = true ↔
      (b.score < a.score ∨ (a.score = b.score ∧
        (b.tasksCompleted < a.tasksCompleted ∨ (a.tasksCompleted = b.tasksCompleted ∧
          a.joinedAt ≤ b.joinedAt)))) := by
  simp only [pointsOrder]
  split <;> (try split) <;> simp only [decide_eq_true_eq] <;> omega

theorem tasksOrder_iff (a b : PlayerSession) :
    tasksOrder a b = true ↔
      (b.tasksCompleted < a.tasksCompleted ∨ (a.tasksCompleted = b.tasksCompleted ∧
        (b.score < a.score ∨ (a.score = b.score ∧ a.joinedAt ≤ b.joinedAt)))) := by
  simp only [tasksOrder]
  split <;> (try split) <;> simp only [decide_eq_true_eq] <;> omega

theorem combinedOrder_iff (ppt : Nat) (a b : PlayerSession) :
    combinedOrder ppt a b = true ↔
      (weightedScore ppt b < weightedScore ppt a ∨
        (weightedScore ppt a = weightedScore ppt b ∧
          (b.score < a.score ∨ (a.score = b.score ∧
            (b.tasksCompleted < a.tasksCompleted ∨ (a.tasksCompleted = b.tasksCompleted ∧
              a.joinedAt ≤ b.joinedAt)))))) := by
  simp only [combinedOrder]
  split <;> (try split) <;> (try split) <;> simp only [decide_eq_true_eq] <;> omega

theorem pointsOrder_trans (a b c : PlayerSession)
    (hab : pointsOrder a b = true) (hbc : pointsOrder b c = true) :
    pointsOrder a c = true := by
  simp only [pointsOrder_iff] at hab hbc ⊢
  omega

theorem pointsOrder_total (a b : PlayerSession) :
    pointsOrder a b = true ∨ pointsOrder b a = true := by
  simp only [pointsOrder_iff]
  omega

theorem tasksOrder_trans (a b c : PlayerSession)
    (hab : tasksOrder a b = true) (hbc : tasksOrder b c = true) :
    tasksOrder a c = true := by
  simp only [tasksOrder_iff] at hab hbc ⊢
  omega

theorem tasksOrder_total (a b : PlayerSession) :
    tasksOrder a b = true ∨ tasksOrder b a = true := by
  simp only [tasksOrder_iff]
  omega

theorem combinedOrder_trans (ppt : Nat) (a b c : PlayerSession)
    (hab : combinedOrder ppt a b = true) (hbc : combinedOrder ppt b c = true) :
    combinedOrder ppt a c = true := by
  simp only [combinedOrder_iff] at hab hbc ⊢
  omega

theorem combinedOrder_total (ppt : Nat) (a b : PlayerSession) :
    combinedOrder ppt a b = true ∨ combinedOrder ppt b a = true := by
  simp only [combinedOrder_iff]
  omega

/-! ### Store helper lemmas -/

theorem find?_saveSessionDoc {l : List GameSession} {sid : Nat} {s s₁ : GameSession}
    (h : l.find? (fun x => x.sessionId == sid) = some s)
    (hid : s₁.sessionId = s.sessionId) :
    (saveSessionDoc l s₁).find? (fun x => x.sessionId == sid) = some s₁ := by
  have hkey : s.sessionId = sid := by
    have := List.find?_some h
    simpa using this
  induction l with
  | nil => simp at h
  | cons a t ih =>
    by_cases ha : a.sessionId = sid
    · have hfound : a = s := by
        have : (a :: t).find? (fun x => x.sessionId == sid) = some a :=
          List.find?_cons_of_pos t (by simpa using ha)
        rw [this] at h
        exact (Option.some.injEq _ _).mp h
      subst hfound
      simp [saveSessionDoc, hid, hkey, ha]
    · have h' : t.find? (fun x => x.sessionId == sid) = some s := by
        rwa [List.find?_cons_of_neg t (by simpa using ha)] at h
      have : (saveSessionDoc t s₁).find? (fun x => x.sessionId == sid) = some s₁ := ih h'
      have hne : ¬ (a.sessionId == s₁.sessionId) = true := by
        simp [hid, hkey]
        exact ha
      simp only [saveSessionDoc, List.map_cons]
      rw [if_neg hne]
      rw [List.find?_cons_of_neg _ (by simpa using ha)]
      exact this

theorem find?_savePlayerSessionDoc {l : List PlayerSession} {sid uid : Nat}
    {p p₁ : PlayerSession}
    (h : l.find? (fun x => x.sessionId == sid && x.userId == uid) = some p)
    (hsid : p₁.sessionId = p.sessionId) (huid : p₁.userId = p.userId) :
    (savePlayerSessionDoc l p₁).find?
      (fun x => x.sessionId == sid && x.userId == uid) = some p₁ := by
  have hkey : p.sessionId = sid ∧ p.userId = uid := by
    have := List.find?_some h
    simpa using this
  induction l with
  | nil => simp at h
  | cons a t ih =>
    by_cases ha : a.sessionId = sid ∧ a.userId = uid
    · have hfound : a = p := by
        have : (a :: t).find? (fun x => x.sessionId == sid && x.userId == uid) = some a :=
          List.find?_cons_of_pos t (by simp [ha.1, ha.2])
        rw [this] at h
        exact (Option.some.injEq _ _).mp h
      subst hfound
      simp [savePlayerSessionDoc, hsid, huid, hkey.1, hkey.2, ha.1, ha.2]
    · have hneg : ¬ (a.sessionId == sid && a.userId == uid) = true := by
        simpa using fun h1 h2 => ha ⟨h1, h2⟩
      have h' : t.find? (fun x => x.sessionId == sid && x.userId == uid) = some p := by
        rwa [List.find?_cons_of_neg t hneg] at h
      have hrec := ih h'
      have hne : ¬ (a.sessionId == p₁.sessionId && a.userId == p₁.userId) = true := by
        simp only [hsid, huid, hkey.1, hkey.2]
        exact hneg
      simp only [savePlayerSessionDoc, List.map_cons]
      rw [if_neg hne]
      rw [List.find?_cons_of_neg _ (by exact hneg)]
      exact hrec

theorem find?_saveRewardDoc {l : List TokenReward} {rid : Nat} {r r₁ : TokenReward}
    (h : l.find? (fun x => x.rewardId == rid) = some r)
    (hid : r₁.rewardId = r.rewardId) :
    (saveRewardDoc l r₁).find? (fun x => x.rewardId == rid) = some r₁ := by
  have hkey : r.rewardId = rid := by
    have := List.find?_some h
    simpa using this
  induction l with
  | nil => simp at h
  | cons a t ih =>
    by_cases ha : a.rewardId = rid
    · have hfound : a = r := by
        have : (a :: t).find? (fun x => x.rewardId == rid) = some a :=
          List.find?_cons_of_pos t (by simpa using ha)
        rw [this] at h
        exact (Option.some.injEq _ _).mp h
      subst hfound
      simp [saveRewardDoc, hid, hkey, ha]
    · have h' : t.find? (fun x => x.rewardId == rid) = some r := by
        rwa [List.find?_cons_of_neg t (by simpa using ha)] at h
      have hrec := ih h'
      have hne : ¬ (a.rewardId == r₁.rewardId) = true := by
        simp [hid, hkey]
        exact ha
      simp only [saveRewardDoc, List.map_cons]
      rw [if_neg hne]
      rw [List.find?_cons_of_neg _ (by simpa using ha)]
      exact hrec

/-! ### Winner membership lemmas -/

theorem head?_sortByOrder_mem {le : PlayerSession → PlayerSession → Bool}
    {l : List PlayerSession} {w : PlayerSession}
    (h : (sortByOrder le l).head? = some w) : w ∈ l := by
  have := List.mem_of_mem_head? (by rw [h]; exact Option.mem_some_self w)
  exact mem_sortByOrder.mp this

theorem head?_sortByOrder_isSome (le : PlayerSession → PlayerSession → Bool)
    {l : List PlayerSession} (h : l ≠ []) :
    ∃ w, (sortByOrder le l).head? = some w := by
  have hlen : (sortByOrder le l).length = l.length := length_sortByOrder le l
  cases hs : sortByOrder le l with
  | nil =>
    exfalso
    apply h
    have : l.length = 0 := by rw [← hlen, hs]; rfl
    exact List.length_eq_zero.mp this
  | cons x xs => exact ⟨x, rfl⟩

/-- Every winner the strategy switch can produce is an active player of the
session, and with a nonempty active list some winner is produced. -/
theorem selectWinner_some_mem (sid : Nat) (cfg : SessionConfig)
    (l : List PlayerSession) (rand : Nat)
    (h : activePlayers sid l ≠ []) :
    ∃ w, ScoringService.selectWinner sid cfg l rand = some w ∧
      w ∈ activePlayers sid l := by
  have hrand : ∃ w, ScoringService.calculateWinnerRandom sid l rand = some w ∧
      w ∈ activePlayers sid l := by
    unfold ScoringService.calculateWinnerRandom
    have hne : (activePlayers sid l).isEmpty = false := by
      simpa [List.isEmpty_iff] using h
    have hlt : rand % (activePlayers sid l).length < (activePlayers sid l).length :=
      Nat.mod_lt _ (by
        cases hl : activePlayers sid l with
        | nil => exact absurd hl h
        | cons x xs => simp)
    refine ⟨(activePlayers sid l).get ⟨rand % (activePlayers sid l).length, hlt⟩, ?_, ?_⟩
    · simp [hne, List.getElem?_eq_getElem hlt]
    · exact List.get_mem _ _ hlt
  unfold ScoringService.selectWinner
  by_cases hov : cfg.enableRandomWinner
  · simpa [hov] using hrand
  · cases hst : cfg.scoringType with
    | POINTS =>
      obtain ⟨w, hw⟩ := head?_sortByOrder_isSome pointsOrder h
      exact ⟨w, by simp [hov, hst, ScoringService.calculateWinnerByPoints, hw],
        head?_sortByOrder_mem hw⟩
    | TASKS =>
      obtain ⟨w, hw⟩ := head?_sortByOrder_isSome tasksOrder h
      exact ⟨w, by simp [hov, hst, ScoringService.calculateWinnerByTasks, hw],
        head?_sortByOrder_mem hw⟩
    | RANDOM =>
      obtain ⟨w, hw, hmem⟩ := hrand
      exact ⟨w, by simp [hov, hst, hw], hmem⟩
    | COMBINED =>
      obtain ⟨w, hw⟩ := head?_sortByOrder_isSome
        (combinedOrder (if cfg.pointsPerTask = 0 then 10 else cfg.pointsPerTask)) h
      exact ⟨w, by simp [hov, hst, ScoringService.calculateWinnerCombined, hw],
        head?_sortByOrder_mem hw⟩

/-! ### Claim C4 -/

/-- Claim C4: for every session created with autoStart enabled that is in
WAITING state, the join that makes the membership count reach
minPlayersToStart transitions the session to LIVE, stamps startTime and,
when autoEnd is enabled, sets
`scheduledEndTime = startTime + durationMinutes * 60 * 1000`. -/
theorem C4_autostart_on_threshold_join (s : GameSession) (uid now : Nat)
    (hw : s.status = .WAITING) (hauto : s.config.autoStart = true)
    (hmem : s.players.contains uid = false)
    (hmin : s.minPlayersToStart ≤ s.players.length + 1) :
    ∃ s₁, s.addPlayer uid now = .ok s₁ ∧ s₁.status = .LIVE ∧
      s₁.startTime = some now ∧ s₁.players = s.players ++ [uid] ∧
      (s.config.autoEnd = true →
        s₁.scheduledEndTime = some (now + s.durationMinutes * 60 * 1000)) ∧
      (s.config.autoEnd = false → s₁.scheduledEndTime = s.scheduledEndTime) := by
  have hjoin : s.isJoinable = true := by
    simp [GameSession.isJoinable, hw]
  have hcount : ({ s with players := s.players ++ [uid] } : GameSession).playerCount
      ≥ s.minPlayersToStart := by
    simp [GameSession.playerCount]
    omega
  simp only [GameSession.addPlayer]
  rw [if_neg (show ¬ ¬ s.isJoinable = true by simp [hjoin])]
  rw [if_neg (show ¬ s.players.contains uid = true by rw [hmem]; exact Bool.false_ne_true)]
  rw [if_pos (show _ ∧ _ ∧ _ from ⟨hauto, hw, hcount⟩)]
  simp only [GameSession.start]
  rw [if_neg (show ¬ ¬ _ = SessionStatus.WAITING from not_not_intro hw)]
  rw [if_neg (show ¬ _ from by
    simp only [GameSession.playerCount, List.length_append, List.length_cons,
      List.length_nil, not_lt]
    omega)]
  cases hae : s.config.autoEnd with
  | true =>
    exact ⟨_, rfl, by simp, by simp, by simp, fun _ => by simp, fun h => by simp at h⟩
  | false =>
    exact ⟨_, rfl, by simp, by simp, by simp, fun h => by simp at h, fun _ => by simp⟩

/-- Witness for C4: a WAITING session with minPlayersToStart 2, maxPlayers 3,
autoStart and autoEnd on, one member; the second join flips it LIVE with the
scheduled end time. -/
theorem C4_witness :
    (let s : GameSession :=
      { sessionId := 1, status := .WAITING, creatorId := 1, players := [1],
        durationMinutes := 10, maxPlayers := 3, minPlayersToStart := 2,
        config := { autoStart := true, autoEnd := true } }
     ∃ s₁, s.addPlayer 2 5000 = .ok s₁ ∧ s₁.status = .LIVE ∧
      s₁.startTime = some 5000 ∧ s₁.players = [1] ++ [2] ∧
      (s.config.autoEnd = true →
        s₁.scheduledEndTime = some (5000 + 10 * 60 * 1000)) ∧
      (s.config.autoEnd = false → s₁.scheduledEndTime = s.scheduledEndTime)) := by
  exact C4_autostart_on_threshold_join _ 2 5000 rfl rfl (by decide) (by decide)

/-! ### Claim C8 -/

/-- Counterexample to claim C8: an attempted negative write through
updatePerformance fails with an error instead of storing a clamped zero. -/
theorem C8_counterexample :
    (let p : PlayerSession := { sessionId := 1, userId := 2, score := 3,
                                tasksCompleted := 1, joinedAt := 0 }
     p.updatePerformance (-5) 0 100 =
       .error (.internal "Score and tasks cannot be negative") ∧
     ∀ q, p.updatePerformance (-5) 0 100 ≠ .ok q) := by
  constructor
  · rfl
  · intro q h
    simp [PlayerSession.updatePerformance] at h

/-- Claim C8 (amended): writes of negative values fail rather than clamp:
the explicit guards of updatePerformance and incrementScore reject negative
input, and a document holding a negative value that reaches a save is
rejected by the schema min-0 validators, which run before the pre-save clamp
hook, so no negative value is ever clamped or stored; consequently every
successful save yields the row unchanged with non-negative score and
tasksCompleted. -/
theorem C8_negative_writes (p : PlayerSession) (s t pts : Int) (now : Nat) :
    (s < 0 ∨ t < 0 → ∃ e, p.updatePerformance s t now = .error e) ∧
    (pts < 0 → ∃ e, p.incrementScore pts now = .error e) ∧
    (0 ≤ s → 0 ≤ t → p.updatePerformance s t now =
      .ok { p with score := s, tasksCompleted := t, lastActivityAt := now }) ∧
    (p.score < 0 ∨ p.tasksCompleted < 0 → ∃ e, p.save = .error e) ∧
    (∀ q, p.save = .ok q → q = p ∧ 0 ≤ q.score ∧ 0 ≤ q.tasksCompleted) := by
  refine ⟨?_, ?_, ?_, ?_, ?_⟩
  · intro h
    exact ⟨.internal "Score and tasks cannot be negative",
      by simp [PlayerSession.updatePerformance, if_pos h]⟩
  · intro h
    exact ⟨.internal "Cannot add negative points",
      by simp [PlayerSession.incrementScore, if_pos h]⟩
  · intro hs ht
    simp only [PlayerSession.updatePerformance]
    rw [if_neg (by omega)]
    simp only [PlayerSession.save, PlayerSession.validateDoc, PlayerSession.preSaveClamp]
    rw [if_neg (by simp; omega)]
    rw [if_neg (by simp; omega)]
    simp only [Except.ok.injEq]
    congr 1 <;> simp <;> omega
  · intro h
    by_cases hsc : p.score < 0
    · exact ⟨.validation "Score cannot be negative",
        by simp [PlayerSession.save, PlayerSession.validateDoc, hsc]⟩
    · have htk : p.tasksCompleted < 0 := by omega
      exact ⟨.validation "Tasks completed cannot be negative",
        by simp [PlayerSession.save, PlayerSession.validateDoc, hsc, htk]⟩
  · intro q hq
    simp only [PlayerSession.save, PlayerSession.validateDoc] at hq
    by_cases hsc : p.score < 0
    · rw [if_pos hsc] at hq
      simp at hq
    · rw [if_neg hsc] at hq
      by_cases htk : p.tasksCompleted < 0
      · rw [if_pos htk] at hq
        simp at hq
      · rw [if_neg htk] at hq
        simp only [Except.ok.injEq] at hq
        have hqp : q = p := by
          rw [← hq]
          simp [PlayerSession.preSaveClamp, if_neg hsc, if_neg htk]
        refine ⟨hqp, ?_, ?_⟩ <;> rw [hqp] <;> omega

/-- Witness for C8: the rejected negative write, the successful non-negative
write, the rejected save of a row holding a negative score, and the
identity save of a schema-valid row. -/
theorem C8_witness :
    ((-3 : Int) < 0 ∨ (0 : Int) < 0) ∧
    (∃ e, pC8.updatePerformance (-3) 0 9 = .error e) ∧
    (pC8.updatePerformance 1 2 9 =
      .ok { pC8 with score := 1, tasksCompleted := 2, lastActivityAt := 9 }) ∧
    (pC8.score < 0 ∨ pC8.tasksCompleted < 0) ∧
    (∃ e, pC8.save = .error e) ∧
    (pC8good.save = .ok pC8good ∧
      pC8good = pC8good ∧ 0 ≤ pC8good.score ∧ 0 ≤ pC8good.tasksCompleted) := by
  refine ⟨Or.inl (by decide), ?_, ?_, Or.inl (by decide), ?_, ?_, ?_⟩
  · exact (C8_negative_writes pC8 (-3) 0 5 9).1 (Or.inl (by decide))
  · exact (C8_negative_writes pC8 1 2 5 9).2.2.1 (by decide) (by decide)
  · exact (C8_negative_writes pC8 1 2 5 9).2.2.2.1 (Or.inl (by decide))
  · exact (rfl : pC8good.save = .ok pC8good)
  · exact (C8_negative_writes pC8good 1 2 5 9).2.2.2.2 pC8good rfl

/-! ### Claim C9 -/

/-- Claim C9: retry of a reward fails with NotRetryable unless the record is
FAILED with retryCount below 5; when retryable the record is reset to PENDING
and the transport re-invoked; a transport failure marks the record FAILED
with the error message and an incremented retryCount, a transport success
marks it COMPLETED with the transaction hash. -/
theorem C9_retry_semantics (store : Store) (rid : Nat) (now : Nat) :
    (∀ r : TokenReward, r.canRetry = true ↔ (r.status = .FAILED ∧ r.retryCount < 5)) ∧
    (∀ r transport, TokenReward.findById store rid = some r → r.canRetry = false →
      BlockchainService.retryFailedReward store rid transport now =
        (store, .error (.validation "Reward cannot be retried"))) ∧
    (∀ r : TokenReward, r.canRetry = true →
      r.retry = .ok { r with status := .PENDING, errorMessage := none } ∧
      ({ r with status := .PENDING, errorMessage := none } : TokenReward).retryCount
        = r.retryCount) ∧
    (∀ r u e, TokenReward.findById store rid = some r → r.canRetry = true →
      User.findById store r.userId = some u →
      ∃ failed,
        TokenReward.findById
          (BlockchainService.retryFailedReward store rid (.error e) now).1 rid
          = some failed ∧
        failed.status = .FAILED ∧ failed.retryCount = r.retryCount + 1 ∧
        failed.errorMessage = some (if e = "" then "Retry failed" else e)) ∧
    (∀ r u tx bn, TokenReward.findById store rid = some r → r.canRetry = true →
      User.findById store r.userId = some u → tx ≠ "" →
      ∃ completed,
        TokenReward.findById
          (BlockchainService.retryFailedReward store rid (.ok (tx, bn)) now).1 rid
          = some completed ∧
        completed.status = .COMPLETED ∧ completed.transactionHash = some tx) := by
  have hcanIff : ∀ r : TokenReward,
      r.canRetry = true ↔ (r.status = .FAILED ∧ r.retryCount < 5) := by
    intro r
    simp [TokenReward.canRetry]
  have hretry : ∀ r : TokenReward, r.canRetry = true →
      r.retry = .ok { r with status := .PENDING, errorMessage := none } := by
    intro r hc
    rcases (hcanIff r).mp hc with ⟨hst, hcnt⟩
    simp [TokenReward.retry, hst, hcnt, Nat.not_le.mpr hcnt]
  refine ⟨hcanIff, ?_, ?_, ?_, ?_⟩
  · intro r transport hfind hcan
    simp only [BlockchainService.retryFailedReward, hfind]
    rw [if_pos (by simp [hcan])]
  · intro r hc
    exact ⟨hretry r hc, rfl⟩
  · intro r u e hfind hcan huser
    simp only [BlockchainService.retryFailedReward, hfind]
    rw [if_neg (by simp [hcan])]
    rw [hretry r hcan]
    have hfind₁ : List.find? (fun x => x.rewardId == rid)
        (saveRewardDoc store.rewards { r with status := .PENDING, errorMessage := none }) =
        some { r with status := .PENDING, errorMessage := none } :=
      find?_saveRewardDoc hfind rfl
    have huser₁ : User.findById
        { store with rewards := (saveRewardDoc store.rewards
            { r with status := .PENDING, errorMessage := none }) } r.userId = some u := huser
    simp only [huser₁]
    refine ⟨_, find?_saveRewardDoc hfind₁ rfl, rfl, rfl, ?_⟩
    simp only [TokenReward.markFailed]
    by_cases he : e = "" <;> simp [he]
  · intro r u tx bn hfind hcan huser htx
    simp only [BlockchainService.retryFailedReward, hfind]
    rw [if_neg (by simp [hcan])]
    rw [hretry r hcan]
    have hfind₁ : List.find? (fun x => x.rewardId == rid)
        (saveRewardDoc store.rewards { r with status := .PENDING, errorMessage := none }) =
        some { r with status := .PENDING, errorMessage := none } :=
      find?_saveRewardDoc hfind rfl
    have huser₁ : User.findById
        { store with rewards := (saveRewardDoc store.rewards
            { r with status := .PENDING, errorMessage := none }) } r.userId = some u := huser
    simp only [huser₁]
    simp only [TokenReward.markCompleted, if_neg htx]
    refine ⟨_, find?_saveRewardDoc hfind₁ rfl, rfl, rfl⟩

/-- Witness for C9: a concrete FAILED record with retryCount 2 is retried;
the failing transport leaves it FAILED with retryCount 3, the succeeding
transport completes it. -/
theorem C9_witness :
    (rewardC9.canRetry = true ↔ (rewardC9.status = .FAILED ∧ rewardC9.retryCount < 5)) ∧
    (∃ failed,
       TokenReward.findById
         (BlockchainService.retryFailedReward storeC9 5 (.error "down") 77).1 5
         = some failed ∧
       failed.status = .FAILED ∧ failed.retryCount = rewardC9.retryCount + 1 ∧
       failed.errorMessage = some (if "down" = "" then "Retry failed" else "down")) ∧
    (∃ completed,
       TokenReward.findById
         (BlockchainService.retryFailedReward storeC9 5 (.ok ("0xtx", 4)) 77).1 5
         = some completed ∧
       completed.status = .COMPLETED ∧ completed.transactionHash = some "0xtx") := by
  refine ⟨(C9_retry_semantics storeC9 5 77).1 rewardC9, ?_, ?_⟩
  · exact (C9_retry_semantics storeC9 5 77).2.2.2.1 rewardC9
      { userId := 3, walletAddress := "0xabc" } "down" (by rfl) (by rfl) (by rfl)
  · exact (C9_retry_semantics storeC9 5 77).2.2.2.2 rewardC9
      { userId := 3, walletAddress := "0xabc" } "0xtx" 4 (by rfl) (by rfl) (by rfl)
      (by decide)

/-! ### Claim C10 -/

/-- Claim C10: a configured pointsPerTask of zero is falsy, so the COMBINED
strategy weighs tasks with the default 10 both at winner computation
(`sessionConfig.pointsPerTask || 10`) and at session creation
(`sessionConfig.pointsPerTask || DEFAULTS.POINTS_PER_TASK`); the weighted
score is never score alone. -/
theorem C10_zero_pointsPerTask_defaults (sid : Nat) (cfg : SessionConfig)
    (l : List PlayerSession) (store : Store) (uid : Nat)
    (input : CreateSessionInput) (nsid : Nat) :
    (cfg.pointsPerTask = 0 →
      ScoringService.calculateWinnerCombined sid cfg l =
        (sortByOrder (combinedOrder 10) (activePlayers sid l)).head?) ∧
    (input.config.pointsPerTask = some 0 →
      ∀ s₁, (SessionService.createSession store uid input nsid).2 = .ok s₁ →
        s₁.config.pointsPerTask = 10) := by
  constructor
  · intro hppt
    simp [ScoringService.calculateWinnerCombined, hppt]
  · intro hin s₁ hok
    unfold SessionService.createSession at hok
    cases hu : User.findById store uid with
    | none => rw [hu] at hok; simp at hok
    | some user =>
      rw [hu] at hok
      simp [hin] at hok
      split at hok
      · simp only [Except.ok.injEq] at hok
        rw [← hok]
      · simp at hok

/-- Witness for C10: a COMBINED config with pointsPerTask zero weighs with
10, and creating a session with pointsPerTask zero stores 10. -/
theorem C10_witness :
    (({ scoringType := .COMBINED, pointsPerTask := 0 } : SessionConfig).pointsPerTask = 0 →
      ScoringService.calculateWinnerCombined 1
          { scoringType := .COMBINED, pointsPerTask := 0 } [] =
        (sortByOrder (combinedOrder 10) (activePlayers 1 [])).head?) ∧
    (({ config := { pointsPerTask := some 0 } } : CreateSessionInput).config.pointsPerTask
        = some 0 →
      ∀ s₁, (SessionService.createSession { users := [{ userId := 4 }] } 4
          { config := { pointsPerTask := some 0 } } 11).2 = .ok s₁ →
        s₁.config.pointsPerTask = 10) :=
  C10_zero_pointsPerTask_defaults 1 { scoringType := .COMBINED, pointsPerTask := 0 } []
    { users := [{ userId := 4 }] } 4 { config := { pointsPerTask := some 0 } } 11

/-! ### Claim C2 -/

theorem saveRewardDoc_of_fresh (l : List TokenReward) (r : TokenReward)
    (h : ∀ x ∈ l, x.rewardId ≠ r.rewardId) : saveRewardDoc l r = l := by
  induction l with
  | nil => rfl
  | cons a t ih =>
    simp only [saveRewardDoc, List.map_cons]
    rw [if_neg (by simpa using h a (List.mem_cons_self a t))]
    have := ih (fun x hx => h x (List.mem_cons_of_mem a hx))
    simpa [saveRewardDoc] using this

theorem saveRewardDoc_cons (a : TokenReward) (t : List TokenReward) (r₁ : TokenReward)
    (hhead : a.rewardId = r₁.rewardId) (ht : ∀ x ∈ t, x.rewardId ≠ r₁.rewardId) :
    saveRewardDoc (a :: t) r₁ = r₁ :: t := by
  simp only [saveRewardDoc, List.map_cons]
  rw [if_pos (by simpa using hhead)]
  have := saveRewardDoc_of_fresh t r₁ ht
  simpa [saveRewardDoc] using this

theorem countP_saveRewardDoc_cons_le_one (p : TokenReward → Bool)
    (a r₁ : TokenReward) (t : List TokenReward)
    (ht0 : t.countP p = 0) (hfr : ∀ x ∈ t, x.rewardId ≠ r₁.rewardId) :
    (saveRewardDoc (a :: t) r₁).countP p ≤ 1 := by
  have htail : saveRewardDoc t r₁ = t := saveRewardDoc_of_fresh t r₁ hfr
  simp only [saveRewardDoc, List.map_cons] at htail ⊢
  rw [htail]
  by_cases hhead : (a.rewardId == r₁.rewardId) = true
  · rw [if_pos hhead, List.countP_cons, ht0]
    split <;> omega
  · rw [if_neg hhead, List.countP_cons, ht0]
    split <;> omega

theorem countP_session_eq_zero {l : List TokenReward} {sid : Nat}
    (h : TokenReward.findBySession l sid = none) :
    l.countP (fun r => r.sessionId == sid) = 0 := by
  rw [List.countP_eq_zero]
  exact List.find?_eq_none.mp h

/-- Claim C2: at most one reward record ever exists per session: awardToken
fails without touching the store when a record already exists; when none
exists it creates exactly one; and ending an already-terminal session again
fails with the ConflictError and leaves the store unchanged, both on the
reward-processing path and on the manual end path. -/
theorem C2_at_most_one_reward (store : Store) (sid uid : Nat)
    (amt : Option Nat) (rid : Nat) (transport : Except String (String × Nat))
    (now rand : Nat) (creator : Option Nat) :
    (∀ r₀, TokenReward.findBySession store.rewards sid = some r₀ →
      (BlockchainService.awardToken store sid uid amt rid transport now).1 = store ∧
      ∃ e, (BlockchainService.awardToken store sid uid amt rid transport now).2 = .error e) ∧
    (TokenReward.findBySession store.rewards sid = none →
      (∀ x ∈ store.rewards, x.rewardId ≠ rid) →
      (BlockchainService.awardToken store sid uid amt rid transport now).1.rewards.countP
        (fun r => r.sessionId == sid) ≤ 1) ∧
    (∀ session, findSessionById store sid = some session →
      (session.status = .ENDED ∨ session.status = .CANCELLED) →
      (match creator with | some u => session.creatorId = u | none => True) →
      SessionService.endSessionAndProcessRewards store sid creator now rand rid transport =
        (store, .error (.conflict "Session is already ended"))) ∧
    (∀ session uidm, findSessionById store sid = some session →
      session.creatorId = uidm →
      (session.status = .ENDED ∨ session.status = .CANCELLED) →
      SessionService.endSession store sid uidm now =
        (store, .error (.conflict "Session is already ended"))) := by
  refine ⟨?_, ?_, ?_, ?_⟩
  · intro r₀ hdup
    cases hu : User.findById store uid with
    | none => simp [BlockchainService.awardToken, hu]
    | some user =>
      by_cases hw : user.walletAddress = ""
      · constructor <;> simp [BlockchainService.awardToken, hu, hw]
      · constructor <;> simp [BlockchainService.awardToken, hu, hw, hdup]
  · intro hnone hfresh
    have hzero := countP_session_eq_zero hnone
    cases hu : User.findById store uid with
    | none => simp [BlockchainService.awardToken, hu, hzero]
    | some user =>
      by_cases hw : user.walletAddress = ""
      · simp [BlockchainService.awardToken, hu, hw, hzero]
      · have hfr : ∀ failmsg : String,
            ∀ x ∈ store.rewards, x.rewardId ≠
              (({ rewardId := rid, sessionId := sid, userId := uid,
                  tokenAmount := match amt with
                    | some a => if a = 0 then 100 else a
                    | none => 100,
                  status := .PENDING } : TokenReward).markFailed failmsg).rewardId := by
          intro failmsg x hx
          simpa [TokenReward.markFailed] using hfresh x hx
        cases transport with
        | error e =>
          simp only [BlockchainService.awardToken, hu]
          rw [if_neg hw]
          simp only [hnone]
          exact countP_saveRewardDoc_cons_le_one _ _ _ _ hzero (hfr e)
        | ok txbn =>
          obtain ⟨tx, bn⟩ := txbn
          by_cases htx : tx = ""
          · simp only [BlockchainService.awardToken, hu]
            rw [if_neg hw]
            simp only [hnone, TokenReward.markCompleted, if_pos htx]
            exact countP_saveRewardDoc_cons_le_one _ _ _ _ hzero
              (hfr "Transaction hash is required")
          · simp only [BlockchainService.awardToken, hu]
            rw [if_neg hw]
            simp only [hnone, TokenReward.markCompleted, if_neg htx]
            exact countP_saveRewardDoc_cons_le_one _ _ _ _ hzero
              (fun x hx => by simpa using hfresh x hx)
  · intro session hfind hterm hcr
    simp only [SessionService.endSessionAndProcessRewards, hfind]
    rw [if_neg (by
      cases creator with
      | none => simp
      | some u => simp [hcr])]
    rw [if_pos hterm]
  · intro session uidm hfind hcreator hterm
    simp only [SessionService.endSession, hfind]
    rw [if_neg (by simp [hcreator])]
    rw [if_pos hterm]

/-- Witness for C2 at a concrete store. -/
theorem C2_witness :
    ((BlockchainService.awardToken storeC2 3 2 none 9 (.ok ("0xt", 1)) 50).1 = storeC2 ∧
      ∃ e, (BlockchainService.awardToken storeC2 3 2 none 9 (.ok ("0xt", 1)) 50).2
        = .error e) ∧
    ((BlockchainService.awardToken { storeC2 with rewards := [] } 3 2 none 9
        (.error "down") 50).1.rewards.countP (fun r => r.sessionId == 3) ≤ 1) ∧
    (SessionService.endSessionAndProcessRewards storeC2 3 (some 1) 50 0 9 (.ok ("0xt", 1)) =
      (storeC2, .error (.conflict "Session is already ended"))) ∧
    (SessionService.endSession storeC2 3 1 50 =
      (storeC2, .error (.conflict "Session is already ended"))) := by
  refine ⟨?_, ?_, ?_, ?_⟩
  · exact (C2_at_most_one_reward storeC2 3 2 none 9 (.ok ("0xt", 1)) 50 0 (some 1)).1 _ rfl
  · exact (C2_at_most_one_reward { storeC2 with rewards := [] } 3 2 none 9
      (.error "down") 50 0 (some 1)).2.1 rfl (by intro x hx; simp at hx)
  · exact (C2_at_most_one_reward storeC2 3 2 none 9 (.ok ("0xt", 1)) 50 0 (some 1)).2.2.1 _
      rfl (Or.inl rfl) rfl
  · exact (C2_at_most_one_reward storeC2 3 2 none 9 (.ok ("0xt", 1)) 50 0 (some 1)).2.2.2 _
      1 rfl rfl (Or.inl rfl)

/-- Counterexample to claim C3: session 100 of the fixture has membership
count equal to maxPlayers, yet a third join succeeds and leaves the session
above capacity, because isJoinable accepts every WAITING session regardless
of capacity. -/
theorem C3_counterexample :
    (findSessionById storeC3 100).map (fun s => (s.players.length, s.maxPlayers))
      = some (2, 2) ∧
    ∃ s₁, (SessionService.joinSession storeC3 100 3 999).2 = .ok s₁ ∧
      s₁.players = [1, 2, 3] ∧ s₁.status = .WAITING := by
  exact ⟨rfl, _, rfl, rfl, rfl⟩

/-- Claim C3 (amended): a capacity conflict is raised exactly on a full LIVE
session; a WAITING session admits joins regardless of capacity; and a join
can only succeed when the session is WAITING, or LIVE and below capacity,
and the pair has no active PlayerSession row. -/
theorem C3_capacity_admission (store : Store) (sid uid now : Nat) :
    (∀ session, findSessionById store sid = some session →
      session.status = .LIVE → session.isFull = true →
      SessionService.joinSession store sid uid now =
        (store, .error (.conflict "Session is full"))) ∧
    (∀ s₁, (SessionService.joinSession store sid uid now).2 = .ok s₁ →
      ∃ session, findSessionById store sid = some session ∧
        (session.status = .WAITING ∨ (session.status = .LIVE ∧ session.isFull = false)) ∧
        (∀ ps, PlayerSession.findOne store sid uid = some ps → ps.isActive = false)) := by
  constructor
  · intro session hfind hlive hfull
    have hjoin : session.isJoinable = false := by
      simp [GameSession.isJoinable, hlive, hfull]
    simp only [SessionService.joinSession, hfind]
    rw [if_pos (by simp [hjoin])]
    rw [if_neg (by simp [hlive])]
    rw [if_pos hfull]
  · intro s₁ hok
    cases hfind : findSessionById store sid with
    | none =>
      simp only [SessionService.joinSession, hfind] at hok
      simp at hok
    | some session =>
      refine ⟨session, rfl, ?_, ?_⟩
      · by_cases hj : session.isJoinable = true
        · simpa [GameSession.isJoinable] using hj
        · exfalso
          simp only [SessionService.joinSession, hfind] at hok
          rw [if_pos (by simp [hj])] at hok
          by_cases hterm : session.status = .ENDED ∨ session.status = .CANCELLED
          · rw [if_pos hterm] at hok; simp at hok
          · rw [if_neg hterm] at hok
            by_cases hfull : session.isFull = true
            · rw [if_pos hfull] at hok; simp at hok
            · rw [if_neg hfull] at hok; simp at hok
      · intro ps hps
        by_cases hj : session.isJoinable = true
        · by_cases hact : ps.isActive = true
          · exfalso
            simp only [SessionService.joinSession, hfind] at hok
            rw [if_neg (by simp [hj])] at hok
            rw [if_pos (by simp [hps, hact])] at hok
            simp at hok
          · simpa using hact
        · exfalso
          simp only [SessionService.joinSession, hfind] at hok
          rw [if_pos (by simp [hj])] at hok
          by_cases hterm : session.status = .ENDED ∨ session.status = .CANCELLED
          · rw [if_pos hterm] at hok; simp at hok
          · rw [if_neg hterm] at hok
            by_cases hfull : session.isFull = true
            · rw [if_pos hfull] at hok; simp at hok
            · rw [if_neg hfull] at hok; simp at hok

/-- Witness for C3: the capacity conflict on a concrete full LIVE session and
the admission inversion on the concrete successful join of the
counterexample fixture. -/
theorem C3_witness :
    (SessionService.joinSession storeC3live 7 3 5 =
      (storeC3live, .error (.conflict "Session is full"))) ∧
    (∃ session, findSessionById storeC3 100 = some session ∧
      (session.status = .WAITING ∨ (session.status = .LIVE ∧ session.isFull = false)) ∧
      (∀ ps, PlayerSession.findOne storeC3 100 3 = some ps → ps.isActive = false)) := by
  constructor
  · exact (C3_capacity_admission storeC3live 7 3 5).1 _ rfl rfl rfl
  · exact (C3_capacity_admission storeC3 100 3 999).2 _ rfl

/-- Counterexample to claim C7: leave on the ENDED session succeeds and
removes the member from the membership list, mutating the terminal
session. -/
theorem C7_counterexample :
    (findSessionById storeC7 100).map (fun s => (s.status, s.players))
      = some (.ENDED, [7]) ∧
    (SessionService.leaveSession storeC7 100 7 55).2 = .ok () ∧
    (findSessionById (SessionService.leaveSession storeC7 100 7 55).1 100).map
      (fun s => (s.status, s.players)) = some (.ENDED, []) := by
  exact ⟨rfl, rfl, rfl⟩

/-- Claim C7 (amended): leave is not guarded by the session state: on an
ENDED session with an active PlayerSession row it succeeds, marks the row
inactive with leftAt stamped, and removes the member from the players list;
every other session field is left unchanged. -/
theorem C7_leave_on_terminal (store : Store) (sid uid now : Nat)
    (session : GameSession) (ps : PlayerSession)
    (hfind : findSessionById store sid = some session)
    (_hended : session.status = .ENDED)
    (hps : PlayerSession.findOne store sid uid = some ps)
    (hact : ps.isActive = true) :
    (SessionService.leaveSession store sid uid now).2 = .ok () ∧
    findSessionById (SessionService.leaveSession store sid uid now).1 sid =
      some (session.removePlayer uid) ∧
    (session.removePlayer uid).players = session.players.filter (fun id => id != uid) ∧
    (session.removePlayer uid).status = session.status ∧
    (session.removePlayer uid).winner = session.winner ∧
    (session.removePlayer uid).endTime = session.endTime ∧
    (session.removePlayer uid).startTime = session.startTime ∧
    (session.removePlayer uid).scheduledEndTime = session.scheduledEndTime ∧
    (session.removePlayer uid).creatorId = session.creatorId ∧
    (session.removePlayer uid).config = session.config ∧
    (∃ ps₁, PlayerSession.findOne (SessionService.leaveSession store sid uid now).1 sid uid
      = some ps₁ ∧ ps₁.isActive = false ∧ ps₁.leftAt = some now) := by
  have hleave : ps.leaveSession now =
      .ok (({ ps with isActive := false, leftAt := some now }).preSaveClamp) := by
    simp [PlayerSession.leaveSession, hact]
  simp only [SessionService.leaveSession, hfind, hps]
  rw [if_neg (by simp [hact])]
  rw [hleave]
  refine ⟨rfl, ?_, rfl, rfl, rfl, rfl, rfl, rfl, rfl, rfl, ?_⟩
  · exact find?_saveSessionDoc hfind rfl
  · exact ⟨_, find?_savePlayerSessionDoc hps rfl rfl, rfl, rfl⟩

/-- Witness for C7 at the concrete fixture. -/
theorem C7_witness :
    (SessionService.leaveSession storeC7 100 7 55).2 = .ok () ∧
    findSessionById (SessionService.leaveSession storeC7 100 7 55).1 100 =
      some (({ sessionId := 100, status := .ENDED, creatorId := 1,
               players := [7], winner := some 7,
               endTime := some 900 } : GameSession).removePlayer 7) ∧
    (({ sessionId := 100, status := .ENDED, creatorId := 1, players := [7],
        winner := some 7, endTime := some 900 } : GameSession).removePlayer 7).players
      = [7].filter (fun id => id != 7) ∧
    (({ sessionId := 100, status := .ENDED, creatorId := 1, players := [7],
        winner := some 7, endTime := some 900 } : GameSession).removePlayer 7).status
      = .ENDED ∧
    (∃ ps₁, PlayerSession.findOne (SessionService.leaveSession storeC7 100 7 55).1 100 7
      = some ps₁ ∧ ps₁.isActive = false ∧ ps₁.leftAt = some 55) := by
  have h := C7_leave_on_terminal storeC7 100 7 55
    { sessionId := 100, status := .ENDED, creatorId := 1, players := [7],
      winner := some 7, endTime := some 900 }
    { sessionId := 100, userId := 7, joinedAt := 0 } rfl rfl rfl rfl
  exact ⟨h.1, h.2.1, h.2.2.1, h.2.2.2.1, h.2.2.2.2.2.2.2.2.2.2⟩

/-- Counterexample to claim C5: in the TASKS session of the fixture the
computed winner is player 2 (the task leader), yet the persisted finalRank of
player 2 is 2 and that of player 1 is 1 — ranks follow the POINTS ordering,
not the comparator of the session's configured strategy. -/
theorem C5_counterexample :
    (findSessionById storeC5 100).map (fun s => s.config.scoringType)
      = some .TASKS ∧
    (ScoringService.calculateWinner storeC5 100 0).2.map (fun w => w.map (fun p => p.userId))
      = .ok (some 2) ∧
    (PlayerSession.findOne (ScoringService.calculateWinner storeC5 100 0).1 100 2).map
      (fun p => p.finalRank) = some (some 2) ∧
    (PlayerSession.findOne (ScoringService.calculateWinner storeC5 100 0).1 100 1).map
      (fun p => p.finalRank) = some (some 1) := by
  exact ⟨rfl, rfl, rfl, rfl⟩

/-- Claim C5 (amended): after winner selection every active participant is
assigned a 1-based finalRank, but always along the POINTS ordering (score
desc, tasksCompleted desc, joinedAt asc), regardless of the configured
strategy: the i-th row of the POINTS-sorted active list receives finalRank
i+1. -/
theorem C5_final_ranks (sid : Nat) (l : List PlayerSession) :
    (ScoringService.calculateFinalRanks sid l).length = (activePlayers sid l).length ∧
    (∀ i p, (ScoringService.calculateFinalRanks sid l)[i]? = some p →
      p.finalRank = some (i + 1) ∧ p.rank = some (i + 1) ∧
      ((sortByOrder pointsOrder (activePlayers sid l))[i]?).map (fun q => q.userId)
        = some p.userId) ∧
    List.Pairwise (fun a b => pointsOrder a b = true)
      (sortByOrder pointsOrder (activePlayers sid l)) ∧
    List.Perm (sortByOrder pointsOrder (activePlayers sid l)) (activePlayers sid l) := by
  refine ⟨?_, ?_, ?_, ?_⟩
  · simp [ScoringService.calculateFinalRanks, PlayerSession.calculateRanks,
      length_sortByOrder]
  · intro i p hp
    simp only [ScoringService.calculateFinalRanks, PlayerSession.calculateRanks,
      List.getElem?_map] at hp
    cases hq : (sortByOrder pointsOrder (activePlayers sid l)).enum[i]? with
    | none => rw [hq] at hp; simp at hp
    | some iq =>
      rw [hq] at hp
      simp only [Option.map_some'] at hp
      have hp' := (Option.some.injEq _ _).mp hp
      have hidx : iq.1 = i := by
        have := List.getElem?_enum (sortByOrder pointsOrder (activePlayers sid l)) i
        rw [hq] at this
        cases hq2 : (sortByOrder pointsOrder (activePlayers sid l))[i]? with
        | none => rw [hq2] at this; simp at this
        | some q => rw [hq2] at this; simp at this; simp [this]
      have hval : ((sortByOrder pointsOrder (activePlayers sid l))[i]?).map
          (fun q => q.userId) = some iq.2.userId := by
        have := List.getElem?_enum (sortByOrder pointsOrder (activePlayers sid l)) i
        rw [hq] at this
        cases hq2 : (sortByOrder pointsOrder (activePlayers sid l))[i]? with
        | none => rw [hq2] at this; simp at this
        | some q => rw [hq2] at this; simp at this; simp [this]
      refine ⟨?_, ?_, ?_⟩
      · rw [← hp']; simp [PlayerSession.preSaveClamp, hidx]
      · rw [← hp']; simp [PlayerSession.preSaveClamp, hidx]
      · rw [← hp']
        simpa [PlayerSession.preSaveClamp] using hval
  · exact pairwise_sortByOrder pointsOrder pointsOrder_trans pointsOrder_total _
  · exact sortByOrder_perm pointsOrder _

/-- Witness for C5 at the concrete fixture rows. -/
theorem C5_witness :
    (ScoringService.calculateFinalRanks 100 storeC5.playerSessions).length
      = (activePlayers 100 storeC5.playerSessions).length ∧
    (∀ p, (ScoringService.calculateFinalRanks 100 storeC5.playerSessions)[1]? = some p →
      p.finalRank = some 2 ∧ p.rank = some 2 ∧
      ((sortByOrder pointsOrder (activePlayers 100 storeC5.playerSessions))[1]?).map
        (fun q => q.userId) = some p.userId) := by
  refine ⟨(C5_final_ranks 100 storeC5.playerSessions).1, ?_⟩
  intro p hp
  exact (C5_final_ranks 100 storeC5.playerSessions).2.1 1 p hp

/-- Counterexample to claim C6 (spec Scenario B): with equal weighted scores
the COMBINED comparator falls back to score descending before joinedAt, so Y
(score 60) wins even though X joined earlier. -/
theorem C6_counterexample :
    weightedScore 10 psX = weightedScore 10 psY ∧
    psX.joinedAt < psY.joinedAt ∧
    (ScoringService.calculateWinnerCombined 100
        { scoringType := .COMBINED, pointsPerTask := 10 } [psX, psY]).map
      (fun p => p.userId) = some 2 := by
  refine ⟨by decide, by decide, by decide⟩

theorem two_elem_sort_head {le : PlayerSession → PlayerSession → Bool}
    {a b : PlayerSession} (hab : le a b = true) (hba : le b a = false) :
    (sortByOrder le [a, b]).head? = some a ∧
    (sortByOrder le [b, a]).head? = some a := by
  constructor
  · simp [sortByOrder, orderedInsert, hab]
  · simp [sortByOrder, orderedInsert, hba]

/-- Claim C6 (amended): with equal score AND equal tasksCompleted (which
forces equal weighted scores for every pointsPerTask), the earlier joiner is
ordered ahead and wins under POINTS, TASKS and COMBINED; but equal weighted
score alone does not reach the joinedAt tie-break in COMBINED — score
descending is compared first (see the counterexample). -/
theorem C6_tiebreak_equal_score_and_tasks (l : List PlayerSession)
    (a b : PlayerSession) (ha : a ∈ l) (hb : b ∈ l)
    (hs : a.score = b.score) (ht : a.tasksCompleted = b.tasksCompleted)
    (hj : a.joinedAt < b.joinedAt) :
    List.Sublist [a, b] (sortByOrder pointsOrder l) ∧
    List.Sublist [a, b] (sortByOrder tasksOrder l) ∧
    (∀ ppt, List.Sublist [a, b] (sortByOrder (combinedOrder ppt) l)) ∧
    (∀ sid l₂, activePlayers sid l₂ = [a, b] ∨ activePlayers sid l₂ = [b, a] →
      ScoringService.calculateWinnerByPoints sid l₂ = some a ∧
      ScoringService.calculateWinnerByTasks sid l₂ = some a ∧
      (∀ cfg, ScoringService.calculateWinnerCombined sid cfg l₂ = some a)) := by
  have hne : a ≠ b := by
    intro h
    rw [h] at hj
    exact lt_irrefl _ hj
  have hw : ∀ ppt : Nat, weightedScore ppt a = weightedScore ppt b := by
    intro ppt
    simp [weightedScore, hs, ht]
  have hpab : pointsOrder a b = true := by
    simp only [pointsOrder_iff]
    omega
  have hpba : pointsOrder b a = false := by
    rw [Bool.eq_false_iff]
    simp only [ne_eq, pointsOrder_iff]
    omega
  have htab : tasksOrder a b = true := by
    simp only [tasksOrder_iff]
    omega
  have htba : tasksOrder b a = false := by
    rw [Bool.eq_false_iff]
    simp only [ne_eq, tasksOrder_iff]
    omega
  have hcab : ∀ ppt, combinedOrder ppt a b = true := by
    intro ppt
    simp only [combinedOrder_iff]
    have := hw ppt
    omega
  have hcba : ∀ ppt, combinedOrder ppt b a = false := by
    intro ppt
    rw [Bool.eq_false_iff]
    simp only [ne_eq, combinedOrder_iff]
    have := hw ppt
    omega
  refine ⟨?_, ?_, ?_, ?_⟩
  · exact pairwise_strict_before
      (pairwise_sortByOrder pointsOrder pointsOrder_trans pointsOrder_total l)
      (mem_sortByOrder.mpr ha) (mem_sortByOrder.mpr hb) hne hpba
  · exact pairwise_strict_before
      (pairwise_sortByOrder tasksOrder tasksOrder_trans tasksOrder_total l)
      (mem_sortByOrder.mpr ha) (mem_sortByOrder.mpr hb) hne htba
  · intro ppt
    exact pairwise_strict_before
      (pairwise_sortByOrder (combinedOrder ppt) (combinedOrder_trans ppt)
        (combinedOrder_total ppt) l)
      (mem_sortByOrder.mpr ha) (mem_sortByOrder.mpr hb) hne (hcba ppt)
  · intro sid l₂ hact
    refine ⟨?_, ?_, ?_⟩
    · unfold ScoringService.calculateWinnerByPoints
      rcases hact with h | h <;> rw [h]
      · exact (two_elem_sort_head hpab hpba).1
      · exact (two_elem_sort_head hpab hpba).2
    · unfold ScoringService.calculateWinnerByTasks
      rcases hact with h | h <;> rw [h]
      · exact (two_elem_sort_head htab htba).1
      · exact (two_elem_sort_head htab htba).2
    · intro cfg
      unfold ScoringService.calculateWinnerCombined
      rcases hact with h | h <;> rw [h]
      · exact (two_elem_sort_head (hcab _) (hcba _)).1
      · exact (two_elem_sort_head (hcab _) (hcba _)).2

/-- Witness for C6: two concrete fully tied participants (equal score, equal
tasks, distinct joinedAt); the earlier joiner ends up ahead and wins. -/
theorem C6_witness :
    List.Sublist [psA6, psB6] (sortByOrder pointsOrder [psB6, psA6]) ∧
    List.Sublist [psA6, psB6] (sortByOrder tasksOrder [psB6, psA6]) ∧
    ScoringService.calculateWinnerByPoints 100 [psB6, psA6] = some psA6 ∧
    (∀ cfg, ScoringService.calculateWinnerCombined 100 cfg [psB6, psA6] = some psA6) := by
  have h := C6_tiebreak_equal_score_and_tasks [psB6, psA6] psA6 psB6
    (by simp) (by simp) rfl rfl (by decide)
  have hwins := h.2.2.2 100 [psB6, psA6] (Or.inr (by decide))
  exact ⟨h.1, h.2.1, hwins.1, hwins.2.2⟩

/-! ### Claim C1 -/

theorem calculateWinner_ended (store : Store) (sid rand : Nat) (session : GameSession)
    (hfind : findSessionById store sid = some session)
    (hst : session.status = .ENDED)
    (hact : activePlayers sid store.playerSessions ≠ []) :
    ∃ w, w ∈ activePlayers sid store.playerSessions ∧
      ScoringService.calculateWinner store sid rand =
        ({ store with sessions := saveSessionDoc store.sessions { session with winner := some w.userId }, playerSessions := writeBackPlayerSessions store.playerSessions (ScoringService.calculateFinalRanks sid store.playerSessions) },
          .ok (some w)) := by
  obtain ⟨w, hw, hmem⟩ := selectWinner_some_mem sid session.config store.playerSessions rand hact
  refine ⟨w, hmem, ?_⟩
  simp only [ScoringService.calculateWinner, hfind]
  rw [if_neg (by simp [hst])]
  rw [if_neg (by simpa [List.isEmpty_iff] using hact)]
  rw [hw]

theorem awardToken_transport_error (sess : List GameSession)
    (pss : List PlayerSession) (rew : List TokenReward) (users : List User)
    (sid uid rid now : Nat) (e : String) (u : User)
    (hu : User.findById ⟨sess, pss, rew, users⟩ uid = some u)
    (hwa : u.walletAddress ≠ "")
    (hnone : TokenReward.findBySession rew sid = none) :
    BlockchainService.awardToken ⟨sess, pss, rew, users⟩ sid uid none rid (.error e) now =
      (⟨sess, pss, saveRewardDoc (({ rewardId := rid, sessionId := sid, userId := uid, tokenAmount := 100, status := .PENDING } : TokenReward) :: rew) (TokenReward.markFailed { rewardId := rid, sessionId := sid, userId := uid, tokenAmount := 100, status := .PENDING } e), users⟩,
        .error (.internal ("Failed to award token: " ++ e))) := by
  simp only [BlockchainService.awardToken, hu]
  rw [if_neg hwa]
  simp only [hnone]

theorem findBySession_saveRewardDoc_head (a r₁ : TokenReward) (t : List TokenReward)
    (sid : Nat) (h1 : a.rewardId = r₁.rewardId) (h2 : r₁.sessionId = sid) :
    TokenReward.findBySession (saveRewardDoc (a :: t) r₁) sid = some r₁ := by
  simp only [saveRewardDoc, List.map_cons, TokenReward.findBySession]
  rw [if_pos (by simp [h1])]
  exact List.find?_cons_of_pos _ (by simp [h2])

/-- Claim C1 (amended): ending a session through endSessionAndProcessRewards
(the path used by the auto-end reconciler) transitions it to ENDED, stamps
endTime, clears scheduledEndTime, computes and persists a winner, and issues
the reward; a transport failure leaves the session ENDED with its winner and
a FAILED reward record, and the call still reports success.  The manual end
endpoint (SessionService.endSession) performs only the ENDED transition: it
computes no winner and creates no reward record. -/
theorem C1_end_semantics :
    (∀ store sid uid now session, findSessionById store sid = some session →
      session.creatorId = uid →
      session.status ≠ .ENDED → session.status ≠ .CANCELLED →
      ∃ s₁, (SessionService.endSession store sid uid now).2 = .ok s₁ ∧
        s₁.status = .ENDED ∧ s₁.endTime = some now ∧ s₁.scheduledEndTime = none ∧
        s₁.winner = session.winner ∧
        findSessionById (SessionService.endSession store sid uid now).1 sid = some s₁ ∧
        (SessionService.endSession store sid uid now).1.rewards = store.rewards ∧
        (SessionService.endSession store sid uid now).1.playerSessions
          = store.playerSessions ∧
        (SessionService.endSession store sid uid now).1.users = store.users) ∧
    (∀ store sid now rand rid e session, findSessionById store sid = some session →
      session.status ≠ .ENDED → session.status ≠ .CANCELLED →
      activePlayers sid store.playerSessions ≠ [] →
      TokenReward.findBySession store.rewards sid = none →
      (∀ w ∈ activePlayers sid store.playerSessions,
        ∃ u, User.findById store w.userId = some u ∧ u.walletAddress ≠ "") →
      ∃ w s₁,
        (SessionService.endSessionAndProcessRewards store sid none now rand rid
          (.error e)).2 = .ok (some w) ∧
        w ∈ activePlayers sid store.playerSessions ∧
        findSessionById
          (SessionService.endSessionAndProcessRewards store sid none now rand rid
            (.error e)).1 sid = some s₁ ∧
        s₁.status = .ENDED ∧ s₁.endTime = some now ∧ s₁.scheduledEndTime = none ∧
        s₁.winner = some w.userId ∧
        ∃ rec, TokenReward.findBySession
            (SessionService.endSessionAndProcessRewards store sid none now rand rid
              (.error e)).1.rewards sid = some rec ∧
          rec.status = .FAILED ∧ rec.errorMessage.isSome = true) := by
  constructor
  · intro store sid uid now session hfind hcreator hne hnc
    have hend : session.endSession now = .ok { session with status := .ENDED, endTime := some now, scheduledEndTime := none } := by
      simp [GameSession.endSession, hne, hnc]
    simp only [SessionService.endSession, hfind]
    rw [if_neg (by simp [hcreator])]
    rw [if_neg (by simp [hne, hnc])]
    simp only [hend]
    exact ⟨_, rfl, rfl, rfl, rfl, rfl, find?_saveSessionDoc hfind rfl, by trivial,
      by trivial, by trivial⟩
  · intro store sid now rand rid e session hfind hne hnc hact hnone husers
    have hend : session.endSession now = .ok { session with status := .ENDED, endTime := some now, scheduledEndTime := none } := by
      simp [GameSession.endSession, hne, hnc]
    have hfind₁ : findSessionById { store with sessions := saveSessionDoc store.sessions { session with status := .ENDED, endTime := some now, scheduledEndTime := none } } sid = some { session with status := .ENDED, endTime := some now, scheduledEndTime := none } :=
      find?_saveSessionDoc hfind rfl
    obtain ⟨w, hmem, hcalc⟩ := calculateWinner_ended { store with sessions := saveSessionDoc store.sessions { session with status := .ENDED, endTime := some now, scheduledEndTime := none } } sid rand { session with status := .ENDED, endTime := some now, scheduledEndTime := none } hfind₁ rfl hact
    obtain ⟨u, hu, hwa⟩ := husers w hmem
    simp only [SessionService.endSessionAndProcessRewards, hfind]
    rw [if_neg (by simp)]
    rw [if_neg (by simp [hne, hnc])]
    simp only [hend]
    simp only [hcalc]
    rw [awardToken_transport_error
      (saveSessionDoc (saveSessionDoc store.sessions { session with status := .ENDED, endTime := some now, scheduledEndTime := none }) { session with status := .ENDED, endTime := some now, scheduledEndTime := none, winner := some w.userId })
      (writeBackPlayerSessions store.playerSessions (ScoringService.calculateFinalRanks sid store.playerSessions))
      store.rewards store.users sid w.userId rid now e u hu hwa hnone]
    refine ⟨w, _, rfl, hmem, find?_saveSessionDoc hfind₁ rfl, rfl, rfl, rfl, rfl, ?_⟩
    refine ⟨_, findBySession_saveRewardDoc_head _ _ _ _ rfl rfl, rfl, rfl⟩

/-- Counterexample to claim C1: a successful manual end call (the end
endpoint path, SessionService.endSession) on a LIVE session with an active
participant is not followed by winner computation or reward issuance: the
session reaches ENDED with no winner assigned and the reward collection
stays empty. -/
theorem C1_counterexample :
    activePlayers 100 storeC1.playerSessions ≠ [] ∧
    (∃ s₁, (SessionService.endSession storeC1 100 1 1000).2 = .ok s₁ ∧
      s₁.status = .ENDED ∧ s₁.winner = none) ∧
    (SessionService.endSession storeC1 100 1 1000).1.rewards = [] ∧
    (findSessionById (SessionService.endSession storeC1 100 1 1000).1 100).map
      (fun s => s.winner) = some none := by
  exact ⟨by decide, ⟨_, rfl, rfl, rfl⟩, rfl, rfl⟩

/-- Witness for C1: both branches of the amended theorem instantiated at the
concrete fixture (manual end with no side effects; reconciler-style end with
a failing transport keeping the session ENDED with a winner and a FAILED
reward record). -/
theorem C1_witness :
    (∃ s₁, (SessionService.endSession storeC1 100 1 1000).2 = .ok s₁ ∧
      s₁.status = .ENDED ∧ s₁.endTime = some 1000 ∧ s₁.scheduledEndTime = none ∧
      s₁.winner = none ∧
      findSessionById (SessionService.endSession storeC1 100 1 1000).1 100 = some s₁ ∧
      (SessionService.endSession storeC1 100 1 1000).1.rewards = storeC1.rewards ∧
      (SessionService.endSession storeC1 100 1 1000).1.playerSessions
        = storeC1.playerSessions ∧
      (SessionService.endSession storeC1 100 1 1000).1.users = storeC1.users) ∧
    (∃ w s₁,
      (SessionService.endSessionAndProcessRewards storeC1 100 none 1000 0 50
        (.error "down")).2 = .ok (some w) ∧
      w ∈ activePlayers 100 storeC1.playerSessions ∧
      findSessionById
        (SessionService.endSessionAndProcessRewards storeC1 100 none 1000 0 50
          (.error "down")).1 100 = some s₁ ∧
      s₁.status = .ENDED ∧ s₁.endTime = some 1000 ∧ s₁.scheduledEndTime = none ∧
      s₁.winner = some w.userId ∧
      ∃ rec, TokenReward.findBySession
          (SessionService.endSessionAndProcessRewards storeC1 100 none 1000 0 50
            (.error "down")).1.rewards 100 = some rec ∧
        rec.status = .FAILED ∧ rec.errorMessage.isSome = true) := by
  constructor
  · have h := C1_end_semantics.1 storeC1 100 1 1000
      { sessionId := 100, status := .LIVE, creatorId := 1, players := [2],
        startTime := some 0, scheduledEndTime := some 600000 }
      rfl rfl (by decide) (by decide)
    obtain ⟨s₁, h1, h2, h3, h4, h5, h6, h7, h8, h9⟩ := h
    exact ⟨s₁, h1, h2, h3, h4, h5, h6, h7, h8, h9⟩
  · refine C1_end_semantics.2 storeC1 100 1000 0 50 "down"
      { sessionId := 100, status := .LIVE, creatorId := 1, players := [2],
        startTime := some 0, scheduledEndTime := some 600000 }
      rfl (by decide) (by decide) (by decide) rfl ?_
    intro w hw
    have hw2 : w = { sessionId := 100, userId := 2, score := 5, tasksCompleted := 1, joinedAt := 0 } := by
      simpa [storeC1, activePlayers] using hw
    refine ⟨{ userId := 2, walletAddress := "0xbb" }, ?_, by decide⟩
    rw [hw2]
    rfl
